import Mathlib

/-!
Verification of the Diem safety-rules engine (consensus/safety-rules/src/safety_rules.rs).

The Rust source is translated into a shallow embedding: pure data is modelled with
structures over `Nat` (all round and epoch counters are Rust `u64`, so checked
arithmetic is modelled with an explicit `U64_MAX` bound), fallible operations return
`Except Error`, and the stateful engine is modelled by explicit state passing: each
guarded operation takes a `SafetyRules` state and returns the result paired with the
successor state.  Cryptographic verification (signatures over QCs, blocks, proposals,
epoch-change proofs, accumulator extension) lives outside this repository and is
modelled by an `ExternalOracle` of uninterpreted boolean checks passed to the
operations; persistence is in-memory (the storage record is part of the state).
-/

namespace Diem

/-- Decidable equality for `Except`, used to evaluate operation results on concrete
inputs. -/
instance {ε α : Type} [DecidableEq ε] [DecidableEq α] : DecidableEq (Except ε α) :=
  fun x y =>
  match x, y with
  | .ok a, .ok b =>
      if h : a = b then .isTrue (by rw [h]) else .isFalse (by simp [h])
  | .error a, .error b =>
      if h : a = b then .isTrue (by rw [h]) else .isFalse (by simp [h])
  | .ok _, .error _ => .isFalse (by simp)
  | .error _, .ok _ => .isFalse (by simp)

/-- Largest value of a Rust `u64`. -/
def U64_MAX : Nat := 18446744073709551615

/-- Error type of the safety-rules crate (error.rs), restricted to the variants
reachable from safety_rules.rs. -/
inductive Error where
  | NotInitialized (component : String)
  | IncorrectEpoch (got expected : Nat)
  | IncorrectRound (round : Nat)
  | IncorrectLastVotedRound (round last_voted_round : Nat)
  | IncorrectPreferredRound (round preferred_round : Nat)
  | InvalidProposal (detail : String)
  | InvalidQuorumCertificate (detail : String)
  | InvalidAccumulatorExtension (detail : String)
  | InvalidLedgerInfo
  | InvalidOrderedLedgerInfo (detail : String)
  | InconsistentExecutionResult (old new : String)
  | InvalidEpochChangeProof (detail : String)
  | VoteProposalSignatureNotFound
  | ValidatorNotInSet (author : String)
  | ValidatorKeyNotFound (detail : String)
  | SecureStorageMissingDataError (detail : String)
  | InternalError (detail : String)
deriving DecidableEq

/-- Rendering of an error to a message string (Display impl of error.rs); the exact
text is irrelevant to every claim, only that it is a deterministic function. -/
def Error.render : Error → String
  | .SecureStorageMissingDataError d => "secure storage missing data: " ++ d
  | _ => "safety rules error"

/-- The `next_round` from safety_rules.rs: checked u64 increment, `IncorrectRound` on
overflow. -/
def next_round (round : Nat) : Except Error Nat :=
  if round < U64_MAX then .ok (round + 1) else .error (.IncorrectRound round)

/-- Validator verifier: the validator-set public-key map of an epoch, modelled as an
association list from author to expected public key (external type; the spec calls it
the "validator-set public-key map plus quorum voting-power threshold"; the threshold
only matters inside the oracle-modelled signature checks). -/
abbrev ValidatorVerifier := List (Nat × Nat)

/-- The `ValidatorVerifier::get_public_key`: look up an author's expected public key. -/
def ValidatorVerifier.get_public_key (v : ValidatorVerifier) (author : Nat) : Option Nat :=
  (v.find? (fun p => p.1 == author)).map (fun p => p.2)

/-- The `EpochState`: epoch plus its verifier. -/
structure EpochState where
  epoch : Nat
  verifier : ValidatorVerifier
deriving DecidableEq

/-- The `BlockInfo` (diem_types): the fields the safety-rules core reads. -/
structure BlockInfo where
  epoch : Nat
  round : Nat
  id : Nat
  executed_state_id : Nat
  next_epoch_state : Option EpochState
deriving DecidableEq

/-- The `BlockInfo::empty()`: the all-default block info used for "no commit". -/
def BlockInfo.empty : BlockInfo := ⟨0, 0, 0, 0, none⟩

/-- Modelled from the spec: the placeholder executed-state id carried by
ordered-only (pre-execution) block infos; the real constant
(`ACCUMULATOR_PLACEHOLDER_HASH`, diem_types) is not under src/. -/
def ACCUMULATOR_PLACEHOLDER : Nat := 0

/-- Modelled from the spec: `BlockInfo::is_ordered_only` (diem_types, not under
src/) — the commit info is in ordered-only form, i.e. carries no execution result. -/
def BlockInfo.is_ordered_only (b : BlockInfo) : Bool :=
  b.executed_state_id == ACCUMULATOR_PLACEHOLDER

/-- Modelled from the spec: `BlockInfo::match_ordered_only` (diem_types, not under
src/) — equality on everything except the execution-layer fields. -/
def BlockInfo.match_ordered_only (ordered executed : BlockInfo) : Bool :=
  ordered.epoch == executed.epoch && ordered.round == executed.round &&
    ordered.id == executed.id && ordered.next_epoch_state == executed.next_epoch_state

/-- The `QuorumCert`: certified block (B1) and its parent (B0); the aggregate signatures
are checked by the oracle. -/
structure QuorumCert where
  certified_block : BlockInfo
  parent_block : BlockInfo
deriving DecidableEq

/-- The `VoteData`: proposed block info and its parent. -/
structure VoteData where
  proposed : BlockInfo
  parent : BlockInfo
deriving DecidableEq

/-- The `HashValue` as used for `consensus_data_hash`: modelled as a collision-free hash
of the vote data, i.e. the vote data itself. -/
structure HashValue where
  data : VoteData
deriving DecidableEq

/-- The `VoteData::hash()`. -/
def VoteData.hash (vd : VoteData) : HashValue := ⟨vd⟩

/-- The `LedgerInfo`: commit info plus consensus data hash. -/
structure LedgerInfo where
  commit_info : BlockInfo
  consensus_data_hash : HashValue
deriving DecidableEq

/-- The `LedgerInfo::next_epoch_state()` delegates to the commit info. -/
def LedgerInfo.next_epoch_state (li : LedgerInfo) : Option EpochState :=
  li.commit_info.next_epoch_state

/-- The `BlockData`: the signed payload of a proposal. -/
structure BlockData where
  epoch : Nat
  round : Nat
  author : Option Nat
  quorum_cert : QuorumCert
deriving DecidableEq

/-- The `Block`: id plus block data (the block's own signature is oracle-checked). -/
structure Block where
  id : Nat
  block_data : BlockData
deriving DecidableEq

def Block.epoch (b : Block) : Nat := b.block_data.epoch

def Block.round (b : Block) : Nat := b.block_data.round

def Block.quorum_cert (b : Block) : QuorumCert := b.block_data.quorum_cert

/-- The `Timeout`: epoch and round. -/
structure Timeout where
  epoch : Nat
  round : Nat
deriving DecidableEq

/-- The messages the engine signs; Ed25519 signing is deterministic, so a signature
is modelled as the signing key paired with the message. -/
inductive SignMessage where
  | ledger_info (li : LedgerInfo)
  | block_data (bd : BlockData)
  | timeout (t : Timeout)
deriving DecidableEq

/-- A (deterministic) Ed25519 signature. -/
structure Ed25519Signature where
  public_key : Nat
  message : SignMessage
deriving DecidableEq

/-- The `Vote`: vote data, author, ledger info, signature. -/
structure Vote where
  vote_data : VoteData
  author : Nat
  ledger_info : LedgerInfo
  signature : Ed25519Signature
deriving DecidableEq

/-- The `SafetyData` (consensus_types::safety_data): the persistent voting state. -/
structure SafetyData where
  epoch : Nat
  last_voted_round : Nat
  preferred_round : Nat
  one_chain_round : Nat
  last_vote : Option Vote
deriving DecidableEq

/-- The `VoteProposal`: block plus accumulator extension proof (abstract id, verified by
the oracle). -/
structure VoteProposal where
  block : Block
  accumulator_proof : Nat
deriving DecidableEq

/-- The `MaybeSignedVoteProposal`: proposal plus optional execution signature (abstract
id, verified by the oracle). -/
structure MaybeSignedVoteProposal where
  vote_proposal : VoteProposal
  signature : Option Nat
deriving DecidableEq

/-- Modelled from the spec: `VoteProposal::vote_data_ordering_only` (consensus-types,
not under src/) — ordering-only VoteData: the proposed block info with the placeholder
execution state, parented by the QC's certified block. -/
def VoteProposal.vote_data_ordering_only (vp : VoteProposal) : VoteData :=
  ⟨⟨vp.block.block_data.epoch, vp.block.block_data.round, vp.block.id,
      ACCUMULATOR_PLACEHOLDER, none⟩,
    vp.block.block_data.quorum_cert.certified_block⟩

/-- Modelled from the spec: `VoteProposal::vote_data_with_extension_proof`
(consensus-types, not under src/) — VoteData embedding the new accumulator root
produced by the verified extension proof. -/
def VoteProposal.vote_data_with_extension_proof (vp : VoteProposal) (new_root : Nat) :
    VoteData :=
  ⟨⟨vp.block.block_data.epoch, vp.block.block_data.round, vp.block.id, new_root, none⟩,
    vp.block.block_data.quorum_cert.certified_block⟩

/-- The `Waypoint`: version plus committed value hash. -/
structure Waypoint where
  version : Nat
  value : Nat
deriving DecidableEq

/-- The `EpochChangeProof`: abstract (its contents are only inspected by the oracle). -/
structure EpochChangeProof where
  id : Nat
deriving DecidableEq

/-- The `LedgerInfoWithSignatures`. -/
structure LedgerInfoWithSignatures where
  ledger_info : LedgerInfo
  signatures : List (Nat × Nat)
deriving DecidableEq

/-- The `PersistentSafetyStorage`: the durable key/value store, modelled in-memory.
`consensus_keys` maps a public key to the exportable private key of that version;
`handle_keys` are public keys the storage itself can sign with (handle mode). -/
structure PersistentSafetyStorage where
  safety_data : SafetyData
  waypoint : Waypoint
  author : Nat
  consensus_keys : List (Nat × Nat)
  handle_keys : List Nat
deriving DecidableEq

/-- The `PersistentSafetyStorage::consensus_key_for_version`. -/
def PersistentSafetyStorage.consensus_key_for_version (st : PersistentSafetyStorage)
    (pk : Nat) : Except Error Nat :=
  match (st.consensus_keys.find? (fun p => p.1 == pk)).map (fun p => p.2) with
  | some key => .ok key
  | none => .error (.SecureStorageMissingDataError
      ("consensus key for version " ++ toString pk ++ " not found"))

/-- The `ConfigurableValidatorSigner`: either an exported-key signer or a handle that
delegates signing to storage. -/
inductive ConfigurableValidatorSigner where
  | signer (author : Nat) (public_key : Nat)
  | handle (author : Nat) (public_key : Nat)
deriving DecidableEq

def ConfigurableValidatorSigner.author : ConfigurableValidatorSigner → Nat
  | .signer a _ => a
  | .handle a _ => a

def ConfigurableValidatorSigner.public_key : ConfigurableValidatorSigner → Nat
  | .signer _ k => k
  | .handle _ k => k

/-- The `ConfigurableValidatorSigner::sign`: exported keys always sign; a handle asks
storage, which fails when it does not hold the key. -/
def ConfigurableValidatorSigner.sign (s : ConfigurableValidatorSigner)
    (msg : SignMessage) (storage : PersistentSafetyStorage) :
    Except Error Ed25519Signature :=
  match s with
  | .signer _ pk => .ok ⟨pk, msg⟩
  | .handle _ pk =>
      if storage.handle_keys.contains pk then .ok ⟨pk, msg⟩
      else .error (.SecureStorageMissingDataError ("no handle for key " ++ toString pk))

/-- The externally verified checks (Ed25519/BLS verification, well-formedness,
accumulator and epoch-change proofs): code outside this repository, modelled as an
uninterpreted oracle the operations consult. -/
structure ExternalOracle where
  exec_sig_verify : Nat → VoteProposal → Nat → Bool
  qc_verify : QuorumCert → ValidatorVerifier → Bool
  block_sig_verify : Block → ValidatorVerifier → Bool
  block_well_formed : Block → Bool
  accumulator_verify : VoteProposal → Nat → Except String Nat
  proof_verify : EpochChangeProof → Waypoint → Except String LedgerInfoWithSignatures
  epoch_boundary : LedgerInfo → Except String Waypoint
  li_sigs_verify : LedgerInfoWithSignatures → ValidatorVerifier → Bool

/-- The `SafetyRules` engine state. -/
structure SafetyRules where
  persistent_storage : PersistentSafetyStorage
  execution_public_key : Option Nat
  export_consensus_key : Bool
  validator_signer : Option ConfigurableValidatorSigner
  epoch_state : Option EpochState
  decoupled_execution : Bool
deriving DecidableEq

/-- Shorthand for the stored safety data of a state. -/
def SafetyRules.sd (s : SafetyRules) : SafetyData := s.persistent_storage.safety_data

/-- The `PersistentSafetyStorage::set_safety_data` applied to the engine state. -/
def SafetyRules.set_safety_data (s : SafetyRules) (sd : SafetyData) : SafetyRules :=
  { s with persistent_storage := { s.persistent_storage with safety_data := sd } }

/-- The `PersistentSafetyStorage::set_waypoint` applied to the engine state. -/
def SafetyRules.set_waypoint (s : SafetyRules) (w : Waypoint) : SafetyRules :=
  { s with persistent_storage := { s.persistent_storage with waypoint := w } }

/-- Installing the in-memory epoch state (`self.epoch_state = Some(..)`). -/
def SafetyRules.set_epoch_state (s : SafetyRules) (es : EpochState) : SafetyRules :=
  { s with epoch_state := some es }

/-- The `SafetyRules::signer`. -/
def SafetyRules.signer (s : SafetyRules) : Except Error ConfigurableValidatorSigner :=
  match s.validator_signer with
  | some v => .ok v
  | none => .error (.NotInitialized "validator_signer")

/-- The `SafetyRules::epoch_state` (the accessor method; the field keeps the name). -/
def SafetyRules.epoch_state_res (s : SafetyRules) : Except Error EpochState :=
  match s.epoch_state with
  | some es => .ok es
  | none => .error (.NotInitialized "epoch_state")

/-- The `SafetyRules::sign`. -/
def SafetyRules.sign (s : SafetyRules) (msg : SignMessage) :
    Except Error Ed25519Signature :=
  match s.signer with
  | .error e => .error e
  | .ok sgn => sgn.sign msg s.persistent_storage

/-- The `SafetyRules::verify_epoch`. -/
def SafetyRules.verify_epoch (epoch : Nat) (sd : SafetyData) : Except Error Unit :=
  if epoch ≠ sd.epoch then .error (.IncorrectEpoch epoch sd.epoch) else .ok ()

/-- The `SafetyRules::observe_qc`: raise `one_chain_round` and `preferred_round` to what
the QC certifies; returns whether anything changed. -/
def SafetyRules.observe_qc (qc : QuorumCert) (sd : SafetyData) : Bool × SafetyData :=
  let one_chain := qc.certified_block.round
  let two_chain := qc.parent_block.round
  let sd1 := if one_chain > sd.one_chain_round
    then { sd with one_chain_round := one_chain } else sd
  let sd2 := if two_chain > sd1.preferred_round
    then { sd1 with preferred_round := two_chain } else sd1
  (decide (one_chain > sd.one_chain_round) || decide (two_chain > sd1.preferred_round),
    sd2)

/-- The `SafetyRules::verify_and_update_preferred_round` (second voting rule). -/
def SafetyRules.verify_and_update_preferred_round (qc : QuorumCert) (sd : SafetyData) :
    Except Error (Bool × SafetyData) :=
  if qc.certified_block.round < sd.preferred_round then
    .error (.IncorrectPreferredRound qc.certified_block.round sd.preferred_round)
  else
    .ok (SafetyRules.observe_qc qc sd)

/-- The `SafetyRules::verify_and_update_last_vote_round` (first voting rule). -/
def SafetyRules.verify_and_update_last_vote_round (round : Nat) (sd : SafetyData) :
    Except Error SafetyData :=
  if round ≤ sd.last_voted_round then
    .error (.IncorrectLastVotedRound round sd.last_voted_round)
  else
    .ok { sd with last_voted_round := round }

/-- The `SafetyRules::verify_qc`: oracle signature check against the current verifier. -/
def SafetyRules.verify_qc (o : ExternalOracle) (s : SafetyRules) (qc : QuorumCert) :
    Except Error Unit :=
  match s.epoch_state_res with
  | .error e => .error e
  | .ok es =>
      if o.qc_verify qc es.verifier then .ok ()
      else .error (.InvalidQuorumCertificate "invalid signatures")

/-- The `SafetyRules::verify_author`. -/
def SafetyRules.verify_author (s : SafetyRules) (author : Option Nat) :
    Except Error Unit :=
  match s.signer with
  | .error e => .error e
  | .ok sgn =>
      match author with
      | none => .error (.InvalidProposal "No author found in the proposal")
      | some a =>
          if sgn.author ≠ a then
            .error (.InvalidProposal "Proposal author is not validator signer!")
          else .ok ()

/-- The `SafetyRules::extension_check`. -/
def SafetyRules.extension_check (o : ExternalOracle) (vp : VoteProposal) :
    Except Error VoteData :=
  match o.accumulator_verify vp
      vp.block.block_data.quorum_cert.certified_block.executed_state_id with
  | .error e => .error (.InvalidAccumulatorExtension e)
  | .ok new_root => .ok (vp.vote_data_with_extension_proof new_root)

/-- The `SafetyRules::verify_proposal`. -/
def SafetyRules.verify_proposal (o : ExternalOracle) (s : SafetyRules)
    (m : MaybeSignedVoteProposal) : Except Error VoteData :=
  let vp := m.vote_proposal
  let exec_check : Except Error Unit :=
    match s.execution_public_key with
    | none => .ok ()
    | some pk =>
        match m.signature with
        | none => .error .VoteProposalSignatureNotFound
        | some sig =>
            if o.exec_sig_verify sig vp pk then .ok ()
            else .error (.InternalError "execution signature verification failed")
  match exec_check with
  | .error e => .error e
  | .ok _ =>
  let proposed_block := vp.block
  let safety_data := s.persistent_storage.safety_data
  match SafetyRules.verify_epoch proposed_block.epoch safety_data with
  | .error e => .error e
  | .ok _ =>
  match s.verify_qc o proposed_block.quorum_cert with
  | .error e => .error e
  | .ok _ =>
  match s.epoch_state_res with
  | .error e => .error e
  | .ok es =>
  if ¬ (o.block_sig_verify proposed_block es.verifier = true) then
    .error (.InvalidProposal "invalid block signature")
  else if ¬ (o.block_well_formed proposed_block = true) then
    .error (.InvalidProposal "block is not well formed")
  else if s.decoupled_execution then
    .ok vp.vote_data_ordering_only
  else
    SafetyRules.extension_check o vp

/-- The `SafetyRules::construct_ledger_info`: the three-chain commit rule with checked
round arithmetic (the `&&` in the source short-circuits, so the second increment is
only evaluated when the first chain link holds). -/
def SafetyRules.construct_ledger_info (proposed_block : Block)
    (consensus_data_hash : HashValue) : Except Error LedgerInfo :=
  let block2 := proposed_block.round
  let block1 := proposed_block.quorum_cert.certified_block.round
  let block0 := proposed_block.quorum_cert.parent_block.round
  match next_round block0 with
  | .error e => .error e
  | .ok n0 =>
      if n0 = block1 then
        match next_round block1 with
        | .error e => .error e
        | .ok n1 =>
            .ok ⟨if n1 = block2 then proposed_block.quorum_cert.parent_block
                 else BlockInfo.empty, consensus_data_hash⟩
      else
        .ok ⟨BlockInfo.empty, consensus_data_hash⟩

/-- The `ConsensusState`. -/
structure ConsensusState where
  safety_data : SafetyData
  waypoint : Waypoint
  in_validator_set : Bool
deriving DecidableEq

/-- The `SafetyRules::guarded_consensus_state`. -/
def SafetyRules.guarded_consensus_state (s : SafetyRules) :
    Except Error ConsensusState × SafetyRules :=
  (.ok ⟨s.persistent_storage.safety_data, s.persistent_storage.waypoint,
      s.validator_signer.isSome⟩, s)

/-- Key-reconciliation phase of `SafetyRules::guarded_initialize` (the code after
`self.epoch_state = Some(..)`, factored out of the inlined Rust control flow for
proof convenience); every error path clears the installed signer. -/
def SafetyRules.reconcile_key (s3 : SafetyRules) (epoch_state : EpochState) :
    Except Error Unit × SafetyRules :=
  let author := s3.persistent_storage.author
  match ValidatorVerifier.get_public_key epoch_state.verifier author with
  | none => (.error (.ValidatorNotInSet (toString author)),
      { s3 with validator_signer := none })
  | some expected_key =>
  if s3.validator_signer.map ConfigurableValidatorSigner.public_key =
      some expected_key then
    (.ok (), s3)
  else if s3.export_consensus_key then
    match s3.persistent_storage.consensus_key_for_version expected_key with
    | .ok _consensus_key =>
        (.ok (), { s3 with validator_signer := some (.signer author expected_key) })
    | .error (.SecureStorageMissingDataError err) =>
        (.error (.ValidatorKeyNotFound err), { s3 with validator_signer := none })
    | .error e => (.error e, { s3 with validator_signer := none })
  else
    let s4 : SafetyRules := { s3 with validator_signer := some (.handle author expected_key) }
    match s4.sign (.timeout ⟨0, 0⟩) with
    | .ok _ => (.ok (), s4)
    | .error e => (.error (.ValidatorKeyNotFound (Error.render e)),
        { s3 with validator_signer := none })

/-- Epoch-comparison phase of `SafetyRules::guarded_initialize` (the `cmp` match,
factored out): takes the state with the waypoint already possibly advanced. -/
def SafetyRules.epoch_update (s1 : SafetyRules) (epoch_state : EpochState) :
    Except Error Unit × SafetyRules :=
  if s1.persistent_storage.safety_data.epoch > epoch_state.epoch then
    (.error (.NotInitialized ("Provided epoch " ++ toString epoch_state.epoch ++
        " is older than current " ++
        toString s1.persistent_storage.safety_data.epoch ++
        ", likely waypoint is too old")), s1)
  else
    SafetyRules.reconcile_key
      ((if s1.persistent_storage.safety_data.epoch < epoch_state.epoch
          then s1.set_safety_data ⟨epoch_state.epoch, 0, 0, 0, none⟩
          else s1).set_epoch_state epoch_state)
      epoch_state

/-- The `SafetyRules::guarded_initialize` (named with an `_op` suffix). -/
def SafetyRules.guarded_initialize_op (o : ExternalOracle) (s : SafetyRules)
    (proof : EpochChangeProof) : Except Error Unit × SafetyRules :=
  match o.proof_verify proof s.persistent_storage.waypoint with
  | .error e => (.error (.InvalidEpochChangeProof e), s)
  | .ok last_li =>
  match last_li.ledger_info.next_epoch_state with
  | none => (.error .InvalidLedgerInfo, s)
  | some epoch_state =>
  match o.epoch_boundary last_li.ledger_info with
  | .error e => (.error (.InternalError e), s)
  | .ok new_waypoint =>
  SafetyRules.epoch_update
    (if new_waypoint.version > s.persistent_storage.waypoint.version
      then s.set_waypoint new_waypoint else s)
    epoch_state

/-- Tail of `SafetyRules::guarded_construct_and_sign_vote` after the replay
short-circuit (factored out of the inlined Rust control flow for proof
convenience). -/
def SafetyRules.vote_after_replay (s : SafetyRules) (m : MaybeSignedVoteProposal)
    (vote_data : VoteData) : Except Error Vote × SafetyRules :=
  match SafetyRules.verify_and_update_preferred_round
      m.vote_proposal.block.quorum_cert s.persistent_storage.safety_data with
  | .error e => (.error e, s)
  | .ok (_, sd1) =>
  match SafetyRules.verify_and_update_last_vote_round
      m.vote_proposal.block.block_data.round sd1 with
  | .error e => (.error e, s)
  | .ok sd2 =>
  match s.signer with
  | .error e => (.error e, s)
  | .ok sgn =>
  match SafetyRules.construct_ledger_info m.vote_proposal.block vote_data.hash with
  | .error e => (.error e, s)
  | .ok ledger_info =>
  match s.sign (.ledger_info ledger_info) with
  | .error e => (.error e, s)
  | .ok signature =>
  (.ok ⟨vote_data, sgn.author, ledger_info, signature⟩,
    s.set_safety_data { sd2 with
      last_vote := some ⟨vote_data, sgn.author, ledger_info, signature⟩ })

/-- The `SafetyRules::guarded_construct_and_sign_vote`. -/
def SafetyRules.guarded_construct_and_sign_vote (o : ExternalOracle) (s : SafetyRules)
    (m : MaybeSignedVoteProposal) : Except Error Vote × SafetyRules :=
  match s.signer with
  | .error e => (.error e, s)
  | .ok _ =>
  match s.verify_proposal o m with
  | .error e => (.error e, s)
  | .ok vote_data =>
  match s.persistent_storage.safety_data.last_vote with
  | some vote =>
      if vote.vote_data.proposed.round = m.vote_proposal.block.round then
        (.ok vote, s)
      else s.vote_after_replay m vote_data
  | none => s.vote_after_replay m vote_data

/-- The `SafetyRules::guarded_sign_proposal`. -/
def SafetyRules.guarded_sign_proposal (o : ExternalOracle) (s : SafetyRules)
    (block_data : BlockData) : Except Error Ed25519Signature × SafetyRules :=
  match s.signer with
  | .error e => (.error e, s)
  | .ok _ =>
  match s.verify_author block_data.author with
  | .error e => (.error e, s)
  | .ok _ =>
  let safety_data := s.persistent_storage.safety_data
  match SafetyRules.verify_epoch block_data.epoch safety_data with
  | .error e => (.error e, s)
  | .ok _ =>
  if block_data.round ≤ safety_data.last_voted_round then
    (.error (.InvalidProposal ("Proposed round " ++ toString block_data.round ++
        " is not higher than last voted round " ++
        toString safety_data.last_voted_round)), s)
  else
  match s.verify_qc o block_data.quorum_cert with
  | .error e => (.error e, s)
  | .ok _ =>
  match SafetyRules.verify_and_update_preferred_round block_data.quorum_cert
      safety_data with
  | .error e => (.error e, s)
  | .ok _ =>
  match s.sign (.block_data block_data) with
  | .error e => (.error e, s)
  | .ok signature => (.ok signature, s)

/-- The `SafetyRules::guarded_sign_timeout`. -/
def SafetyRules.guarded_sign_timeout (s : SafetyRules) (timeout : Timeout) :
    Except Error Ed25519Signature × SafetyRules :=
  match s.signer with
  | .error e => (.error e, s)
  | .ok _ =>
  let safety_data := s.persistent_storage.safety_data
  match SafetyRules.verify_epoch timeout.epoch safety_data with
  | .error e => (.error e, s)
  | .ok _ =>
  if timeout.round ≤ safety_data.preferred_round then
    (.error (.IncorrectPreferredRound timeout.round safety_data.preferred_round), s)
  else if timeout.round < safety_data.last_voted_round then
    (.error (.IncorrectLastVotedRound timeout.round safety_data.last_voted_round), s)
  else if timeout.round > safety_data.last_voted_round then
    match SafetyRules.verify_and_update_last_vote_round timeout.round safety_data with
    | .error e => (.error e, s)
    | .ok sd1 =>
    let s1 := s.set_safety_data sd1
    match s1.sign (.timeout timeout) with
    | .error e => (.error e, s1)
    | .ok signature => (.ok signature, s1)
  else
    match s.sign (.timeout timeout) with
    | .error e => (.error e, s)
    | .ok signature => (.ok signature, s)

/-- The `SafetyRules::guarded_sign_commit_vote`. -/
def SafetyRules.guarded_sign_commit_vote (o : ExternalOracle) (s : SafetyRules)
    (ledger_info : LedgerInfoWithSignatures) (new_ledger_info : LedgerInfo) :
    Except Error Ed25519Signature × SafetyRules :=
  match s.signer with
  | .error e => (.error e, s)
  | .ok _ =>
  let old_ledger_info := ledger_info.ledger_info
  if BlockInfo.is_ordered_only old_ledger_info.commit_info = false then
    (.error (.InvalidOrderedLedgerInfo "not ordered only"), s)
  else if BlockInfo.match_ordered_only old_ledger_info.commit_info
      new_ledger_info.commit_info = false then
    (.error (.InconsistentExecutionResult "old commit info" "new commit info"), s)
  else
  match s.epoch_state_res with
  | .error e => (.error e, s)
  | .ok es =>
  if o.li_sigs_verify ledger_info es.verifier = false then
    (.error (.InvalidQuorumCertificate "insufficient signatures"), s)
  else
  match s.sign (.ledger_info new_ledger_info) with
  | .error e => (.error e, s)
  | .ok signature => (.ok signature, s)

/-- One public request to the engine (the signing operations of the dispatcher). -/
inductive SafetyCommand where
  | vote (m : MaybeSignedVoteProposal)
  | proposal (bd : BlockData)
  | timeout (t : Timeout)
  | commit (li : LedgerInfoWithSignatures) (nli : LedgerInfo)
deriving DecidableEq

/-- State transition of one signing request (result discarded). -/
def SafetyRules.step (o : ExternalOracle) (s : SafetyRules) :
    SafetyCommand → SafetyRules
  | .vote m => (s.guarded_construct_and_sign_vote o m).2
  | .proposal bd => (s.guarded_sign_proposal o bd).2
  | .timeout t => (s.guarded_sign_timeout t).2
  | .commit li nli => (s.guarded_sign_commit_vote o li nli).2

/-- Run a sequence of signing requests. -/
def SafetyRules.run (o : ExternalOracle) (s : SafetyRules)
    (l : List SafetyCommand) : SafetyRules :=
  l.foldl (SafetyRules.step o) s

/-! Concrete instances used by witnesses and counterexamples. -/

/-- An oracle whose boolean checks all pass (epoch-change proofs are rejected). -/
def trueOracle : ExternalOracle :=
  ⟨fun _ _ _ => true, fun _ _ => true, fun _ _ => true, fun _ => true,
    fun _ _ => .ok 0, fun _ _ => .error "no epoch change proof",
    fun _ => .error "no waypoint", fun _ _ => true⟩

/-- Oracle accepting every epoch-change proof with a fixed ledger info and
waypoint. -/
def initOracle (li : LedgerInfoWithSignatures) (w : Waypoint) : ExternalOracle :=
  { trueOracle with
    proof_verify := fun _ _ => .ok li,
    epoch_boundary := fun _ => .ok w }

/-- Block info with the given epoch, round and id (placeholder execution state). -/
def bi (epoch round id : Nat) : BlockInfo := ⟨epoch, round, id, 0, none⟩

/-- A base engine state: epoch 1, last_voted_round 5, preferred_round 3,
one_chain_round 4, exported-key signer for author 7. -/
def exState : SafetyRules :=
  { persistent_storage :=
      { safety_data := ⟨1, 5, 3, 4, none⟩, waypoint := ⟨0, 0⟩, author := 7,
        consensus_keys := [(70, 700)], handle_keys := [70] },
    execution_public_key := none, export_consensus_key := true,
    validator_signer := some (.signer 7 70), epoch_state := some ⟨1, [(7, 70)]⟩,
    decoupled_execution := true }

/-- Proposal at round 4 whose QC certifies round 2 (parent round 1): violates both
voting rules of `exState` at once. -/
def cexProposal : MaybeSignedVoteProposal :=
  ⟨⟨⟨40, ⟨1, 4, some 7, ⟨bi 1 2 20, bi 1 1 10⟩⟩⟩, 0⟩, none⟩

/-- Proposal at round 4 whose QC certifies round 3 (parent round 2): passes the
preferred-round rule of `exState` but violates the first voting rule. -/
def lvrProposal : MaybeSignedVoteProposal :=
  ⟨⟨⟨41, ⟨1, 4, some 7, ⟨bi 1 3 30, bi 1 2 20⟩⟩⟩, 0⟩, none⟩

/-- Fresh proposal at round 7 whose QC certifies round 6 (parent round 5). -/
def freshProposal : MaybeSignedVoteProposal :=
  ⟨⟨⟨42, ⟨1, 7, some 7, ⟨bi 1 6 60, bi 1 5 50⟩⟩⟩, 0⟩, none⟩

/-- A cached vote whose proposed round is 5. -/
def exVoteData : VoteData := ⟨bi 1 5 50, bi 1 4 40⟩

def exVote : Vote :=
  ⟨exVoteData, 7, ⟨BlockInfo.empty, ⟨exVoteData⟩⟩,
    ⟨70, .ledger_info ⟨BlockInfo.empty, ⟨exVoteData⟩⟩⟩⟩

/-- The `exState` with `exVote` cached as `last_vote`. -/
def replayState : SafetyRules :=
  exState.set_safety_data ⟨1, 5, 3, 4, some exVote⟩

/-- Proposal at round 5 (the cached round of `replayState`). -/
def replayProposal : MaybeSignedVoteProposal :=
  ⟨⟨⟨43, ⟨1, 5, some 7, ⟨bi 1 4 40, bi 1 3 30⟩⟩⟩, 0⟩, none⟩

/-- Ledger info with signatures announcing epoch 2 with an empty validator set. -/
def exEpochLi : LedgerInfoWithSignatures :=
  ⟨⟨⟨0, 0, 0, 0, some ⟨2, []⟩⟩, ⟨exVoteData⟩⟩, []⟩

/-- Ledger info with signatures announcing epoch 2 with validator 7. -/
def exEpochLi7 : LedgerInfoWithSignatures :=
  ⟨⟨⟨0, 0, 0, 0, some ⟨2, [(7, 70)]⟩⟩, ⟨exVoteData⟩⟩, []⟩

/-! Helper lemmas about the voting-rule predicates. -/

theorem observe_qc_snd (qc : QuorumCert) (sd : SafetyData) :
    (SafetyRules.observe_qc qc sd).2 =
      { sd with
        one_chain_round := max sd.one_chain_round qc.certified_block.round,
        preferred_round := max sd.preferred_round qc.parent_block.round } := by
  rcases sd with ⟨e, lvr, pr, ocr, lv⟩
  simp only [SafetyRules.observe_qc]
  split <;> split <;> simp_all <;> omega

theorem vaupr_lt {qc : QuorumCert} {sd : SafetyData}
    (h : qc.certified_block.round < sd.preferred_round) :
    SafetyRules.verify_and_update_preferred_round qc sd =
      .error (.IncorrectPreferredRound qc.certified_block.round sd.preferred_round) := by
  unfold SafetyRules.verify_and_update_preferred_round
  rw [if_pos h]

theorem vaupr_ge {qc : QuorumCert} {sd : SafetyData}
    (h : sd.preferred_round ≤ qc.certified_block.round) :
    SafetyRules.verify_and_update_preferred_round qc sd =
      .ok (SafetyRules.observe_qc qc sd) := by
  unfold SafetyRules.verify_and_update_preferred_round
  rw [if_neg (by omega)]

theorem vaupr_ok_inv {qc : QuorumCert} {sd : SafetyData} {p : Bool × SafetyData}
    (h : SafetyRules.verify_and_update_preferred_round qc sd = .ok p) :
    sd.preferred_round ≤ qc.certified_block.round ∧
      p.2 = { sd with
        one_chain_round := max sd.one_chain_round qc.certified_block.round,
        preferred_round := max sd.preferred_round qc.parent_block.round } := by
  unfold SafetyRules.verify_and_update_preferred_round at h
  split at h
  · cases h
  · cases h
    exact ⟨by omega, observe_qc_snd qc sd⟩

theorem vaupr_ok_inv2 {qc : QuorumCert} {sd : SafetyData} {b : Bool}
    {sd1 : SafetyData}
    (h : SafetyRules.verify_and_update_preferred_round qc sd = .ok (b, sd1)) :
    sd.preferred_round ≤ qc.certified_block.round ∧
      sd1 = { sd with
        one_chain_round := max sd.one_chain_round qc.certified_block.round,
        preferred_round := max sd.preferred_round qc.parent_block.round } := by
  have h2 := vaupr_ok_inv h
  exact ⟨h2.1, h2.2⟩

theorem vaulvr_le {r : Nat} {sd : SafetyData} (h : r ≤ sd.last_voted_round) :
    SafetyRules.verify_and_update_last_vote_round r sd =
      .error (.IncorrectLastVotedRound r sd.last_voted_round) := by
  unfold SafetyRules.verify_and_update_last_vote_round
  rw [if_pos h]

theorem vaulvr_gt {r : Nat} {sd : SafetyData} (h : sd.last_voted_round < r) :
    SafetyRules.verify_and_update_last_vote_round r sd =
      .ok { sd with last_voted_round := r } := by
  unfold SafetyRules.verify_and_update_last_vote_round
  rw [if_neg (by omega)]

theorem vaulvr_ok_inv {r : Nat} {sd sd2 : SafetyData}
    (h : SafetyRules.verify_and_update_last_vote_round r sd = .ok sd2) :
    sd.last_voted_round < r ∧ sd2 = { sd with last_voted_round := r } := by
  unfold SafetyRules.verify_and_update_last_vote_round at h
  split at h
  · cases h
  · cases h
    exact ⟨by omega, rfl⟩

theorem sign_err_shape {s : SafetyRules} {msg : SignMessage} {e : Error}
    (h : s.sign msg = .error e) :
    (∃ c, e = .NotInitialized c) ∨ ∃ d, e = .SecureStorageMissingDataError d := by
  unfold SafetyRules.sign at h
  split at h
  · rename_i e1 heq
    cases h
    unfold SafetyRules.signer at heq
    split at heq
    · cases heq
    · cases heq
      exact .inl ⟨_, rfl⟩
  · rename_i sgn heq
    unfold ConfigurableValidatorSigner.sign at h
    split at h
    · cases h
    · split at h
      · cases h
      · cases h
        exact .inr ⟨_, rfl⟩

theorem consensus_key_err_shape {st : PersistentSafetyStorage} {pk : Nat} {e : Error}
    (h : st.consensus_key_for_version pk = .error e) :
    ∃ d, e = .SecureStorageMissingDataError d := by
  unfold PersistentSafetyStorage.consensus_key_for_version at h
  split at h
  · cases h
  · cases h
    exact ⟨_, rfl⟩

/-! Helper lemmas about the vote-construction flow. -/

theorem observe_qc_lvr (qc : QuorumCert) (sd : SafetyData) :
    ((SafetyRules.observe_qc qc sd).2).last_voted_round = sd.last_voted_round := by
  rw [observe_qc_snd]

theorem cas_vote_replay {o : ExternalOracle} {s : SafetyRules}
    {m : MaybeSignedVoteProposal} {sg : ConfigurableValidatorSigner} {vd : VoteData}
    {v : Vote}
    (h1 : s.validator_signer = some sg)
    (h2 : SafetyRules.verify_proposal o s m = .ok vd)
    (h3 : s.persistent_storage.safety_data.last_vote = some v)
    (h4 : v.vote_data.proposed.round = m.vote_proposal.block.round) :
    SafetyRules.guarded_construct_and_sign_vote o s m = (.ok v, s) := by
  unfold SafetyRules.guarded_construct_and_sign_vote SafetyRules.signer
  rw [h1, h2]
  dsimp only
  rw [h3]
  dsimp only
  rw [if_pos h4]

theorem cas_vote_no_replay {o : ExternalOracle} {s : SafetyRules}
    {m : MaybeSignedVoteProposal} {sg : ConfigurableValidatorSigner} {vd : VoteData}
    (h1 : s.validator_signer = some sg)
    (h2 : SafetyRules.verify_proposal o s m = .ok vd)
    (hnr : ∀ w, s.persistent_storage.safety_data.last_vote = some w →
      w.vote_data.proposed.round ≠ m.vote_proposal.block.round) :
    SafetyRules.guarded_construct_and_sign_vote o s m =
      s.vote_after_replay m vd := by
  unfold SafetyRules.guarded_construct_and_sign_vote SafetyRules.signer
  rw [h1, h2]
  dsimp only
  cases hlv : s.persistent_storage.safety_data.last_vote with
  | none => rfl
  | some w =>
      dsimp only
      rw [if_neg (hnr w hlv)]

theorem var_pr_err {s : SafetyRules} {m : MaybeSignedVoteProposal} {vd : VoteData}
    (hc : m.vote_proposal.block.quorum_cert.certified_block.round <
      s.persistent_storage.safety_data.preferred_round) :
    s.vote_after_replay m vd =
      (.error (.IncorrectPreferredRound
          m.vote_proposal.block.quorum_cert.certified_block.round
          s.persistent_storage.safety_data.preferred_round), s) := by
  unfold SafetyRules.vote_after_replay
  rw [vaupr_lt hc]

theorem var_lvr_err {s : SafetyRules} {m : MaybeSignedVoteProposal} {vd : VoteData}
    (hc : s.persistent_storage.safety_data.preferred_round ≤
      m.vote_proposal.block.quorum_cert.certified_block.round)
    (hr : m.vote_proposal.block.round ≤
      s.persistent_storage.safety_data.last_voted_round) :
    s.vote_after_replay m vd =
      (.error (.IncorrectLastVotedRound m.vote_proposal.block.round
          s.persistent_storage.safety_data.last_voted_round), s) := by
  unfold SafetyRules.vote_after_replay
  rw [vaupr_ge hc]
  rcases hoq : SafetyRules.observe_qc m.vote_proposal.block.quorum_cert
    s.persistent_storage.safety_data with ⟨b, sd1⟩
  dsimp only
  have hlvr1 : sd1.last_voted_round =
      s.persistent_storage.safety_data.last_voted_round := by
    have := observe_qc_lvr m.vote_proposal.block.quorum_cert
      s.persistent_storage.safety_data
    rw [hoq] at this
    exact this
  have herr : SafetyRules.verify_and_update_last_vote_round
      m.vote_proposal.block.block_data.round sd1 =
      .error (.IncorrectLastVotedRound m.vote_proposal.block.round
        s.persistent_storage.safety_data.last_voted_round) := by
    rw [show SafetyRules.verify_and_update_last_vote_round
        m.vote_proposal.block.block_data.round sd1 =
        .error (.IncorrectLastVotedRound m.vote_proposal.block.block_data.round
          sd1.last_voted_round) from vaulvr_le (by rw [hlvr1]; exact hr), hlvr1]
    rfl
  rw [herr]

theorem var_ok_inv {s : SafetyRules} {m : MaybeSignedVoteProposal} {vd : VoteData}
    {v : Vote} {s2 : SafetyRules}
    (hok : s.vote_after_replay m vd = (.ok v, s2)) :
    s.persistent_storage.safety_data.last_voted_round <
      m.vote_proposal.block.round ∧
    s.persistent_storage.safety_data.preferred_round ≤
      m.vote_proposal.block.quorum_cert.certified_block.round ∧
    s2 = s.set_safety_data
      { epoch := s.persistent_storage.safety_data.epoch,
        last_voted_round := m.vote_proposal.block.round,
        preferred_round := max s.persistent_storage.safety_data.preferred_round
          m.vote_proposal.block.quorum_cert.parent_block.round,
        one_chain_round := max s.persistent_storage.safety_data.one_chain_round
          m.vote_proposal.block.quorum_cert.certified_block.round,
        last_vote := some v } := by
  unfold SafetyRules.vote_after_replay at hok
  split at hok
  · cases hok
  split at hok
  · cases hok
  split at hok
  · cases hok
  split at hok
  · cases hok
  split at hok
  · cases hok
  rename_i xp bp sd1 hpr xl sd2 hlvr xs sgn hsg xc li hli xg sig hsig
  cases hok
  obtain ⟨hle, hsd1⟩ := vaupr_ok_inv2 hpr
  obtain ⟨hlt, hsd2⟩ := vaulvr_ok_inv hlvr
  subst hsd2
  subst hsd1
  refine ⟨by simpa using hlt, hle, ?_⟩
  rfl

theorem var_lvr_mono (s : SafetyRules) (m : MaybeSignedVoteProposal)
    (vd : VoteData) :
    s.persistent_storage.safety_data.last_voted_round ≤
      ((s.vote_after_replay m vd).2).persistent_storage.safety_data.last_voted_round
      := by
  rcases hres : s.vote_after_replay m vd with ⟨r, s2⟩
  cases r with
  | error e =>
      unfold SafetyRules.vote_after_replay at hres
      split at hres
      · cases hres; exact Nat.le_refl _
      split at hres
      · cases hres; exact Nat.le_refl _
      split at hres
      · cases hres; exact Nat.le_refl _
      split at hres
      · cases hres; exact Nat.le_refl _
      split at hres
      · cases hres; exact Nat.le_refl _
      cases hres
  | ok v =>
      obtain ⟨hlt, hle, hs2⟩ := var_ok_inv hres
      rw [hs2]
      dsimp only [SafetyRules.set_safety_data]
      omega

theorem verify_epoch_ok {e : Nat} {sd : SafetyData} (h : e = sd.epoch) :
    SafetyRules.verify_epoch e sd = .ok () := by
  unfold SafetyRules.verify_epoch
  rw [if_neg]
  simp [h]

theorem set_safety_data_signer (s : SafetyRules) (sd : SafetyData) :
    (s.set_safety_data sd).validator_signer = s.validator_signer := rfl

theorem sign_err_shape2 {s : SafetyRules} {msg : SignMessage} {e : Error}
    {sg : ConfigurableValidatorSigner}
    (h1 : s.validator_signer = some sg) (h : s.sign msg = .error e) :
    ∃ d, e = .SecureStorageMissingDataError d := by
  unfold SafetyRules.sign SafetyRules.signer at h
  rw [h1] at h
  cases sg with
  | signer a pk =>
      exfalso
      dsimp only [ConfigurableValidatorSigner.sign] at h
      cases h
  | handle a pk =>
      dsimp only [ConfigurableValidatorSigner.sign] at h
      split at h
      · cases h
      · cases h
        exact ⟨_, rfl⟩

theorem except_rebuild {ε α γ : Type} (r : Except ε α) (y : γ) :
    (match r with
      | .error e => ((Except.error e : Except ε α), y)
      | .ok v => (.ok v, y)) = (r, y) := by
  cases r <;> rfl

theorem cas_vote_lvr_mono (o : ExternalOracle) (s : SafetyRules)
    (m : MaybeSignedVoteProposal) :
    s.persistent_storage.safety_data.last_voted_round ≤
      (SafetyRules.guarded_construct_and_sign_vote o s m).2.persistent_storage.safety_data.last_voted_round := by
  unfold SafetyRules.guarded_construct_and_sign_vote
  split
  · exact Nat.le_refl _
  split
  · exact Nat.le_refl _
  split
  · split
    · exact Nat.le_refl _
    · exact var_lvr_mono _ _ _
  · exact var_lvr_mono _ _ _

/-! Helper lemmas about the proposal, timeout and commit-vote flows. -/

theorem sign_proposal_snd (o : ExternalOracle) (s : SafetyRules) (bd : BlockData) :
    (SafetyRules.guarded_sign_proposal o s bd).2 = s := by
  unfold SafetyRules.guarded_sign_proposal
  repeat (first | rfl | (dsimp only) | split)

theorem commit_vote_snd (o : ExternalOracle) (s : SafetyRules)
    (li : LedgerInfoWithSignatures) (nli : LedgerInfo) :
    (SafetyRules.guarded_sign_commit_vote o s li nli).2 = s := by
  unfold SafetyRules.guarded_sign_commit_vote
  repeat (first | rfl | (dsimp only) | split)

theorem st_pr_err {s : SafetyRules} {t : Timeout} {sg : ConfigurableValidatorSigner}
    (h1 : s.validator_signer = some sg)
    (h2 : t.epoch = s.persistent_storage.safety_data.epoch)
    (h3 : t.round ≤ s.persistent_storage.safety_data.preferred_round) :
    SafetyRules.guarded_sign_timeout s t =
      (.error (.IncorrectPreferredRound t.round
          s.persistent_storage.safety_data.preferred_round), s) := by
  unfold SafetyRules.guarded_sign_timeout SafetyRules.signer
  rw [h1]
  dsimp only
  rw [verify_epoch_ok h2]
  dsimp only
  rw [if_pos h3]

theorem st_lvr_err {s : SafetyRules} {t : Timeout} {sg : ConfigurableValidatorSigner}
    (h1 : s.validator_signer = some sg)
    (h2 : t.epoch = s.persistent_storage.safety_data.epoch)
    (h3 : s.persistent_storage.safety_data.preferred_round < t.round)
    (h4 : t.round < s.persistent_storage.safety_data.last_voted_round) :
    SafetyRules.guarded_sign_timeout s t =
      (.error (.IncorrectLastVotedRound t.round
          s.persistent_storage.safety_data.last_voted_round), s) := by
  unfold SafetyRules.guarded_sign_timeout SafetyRules.signer
  rw [h1]
  dsimp only
  rw [verify_epoch_ok h2]
  dsimp only
  rw [if_neg (by omega), if_pos h4]

theorem st_eq_sign {s : SafetyRules} {t : Timeout} {sg : ConfigurableValidatorSigner}
    (h1 : s.validator_signer = some sg)
    (h2 : t.epoch = s.persistent_storage.safety_data.epoch)
    (h3 : s.persistent_storage.safety_data.preferred_round < t.round)
    (h4 : t.round = s.persistent_storage.safety_data.last_voted_round) :
    SafetyRules.guarded_sign_timeout s t = (s.sign (.timeout t), s) := by
  unfold SafetyRules.guarded_sign_timeout SafetyRules.signer
  rw [h1]
  dsimp only
  rw [verify_epoch_ok h2]
  dsimp only
  rw [if_neg (by omega), if_neg (by omega), if_neg (by omega)]
  split
  · rename_i e he
    rw [he]
  · rename_i v hv
    rw [hv]

theorem st_gt_sign {s : SafetyRules} {t : Timeout} {sg : ConfigurableValidatorSigner}
    (h1 : s.validator_signer = some sg)
    (h2 : t.epoch = s.persistent_storage.safety_data.epoch)
    (h3 : s.persistent_storage.safety_data.preferred_round < t.round)
    (h4 : s.persistent_storage.safety_data.last_voted_round < t.round) :
    SafetyRules.guarded_sign_timeout s t =
      ((s.set_safety_data { s.persistent_storage.safety_data with
          last_voted_round := t.round }).sign (.timeout t),
        s.set_safety_data { s.persistent_storage.safety_data with
          last_voted_round := t.round }) := by
  unfold SafetyRules.guarded_sign_timeout SafetyRules.signer
  rw [h1]
  dsimp only
  rw [verify_epoch_ok h2]
  dsimp only
  rw [if_neg (by omega), if_neg (by omega), if_pos h4, vaulvr_gt h4]
  dsimp only
  split
  · rename_i e he
    rw [he]
  · rename_i v hv
    rw [hv]

theorem st_lvr_mono (s : SafetyRules) (t : Timeout) :
    s.persistent_storage.safety_data.last_voted_round ≤
      (SafetyRules.guarded_sign_timeout s t).2.persistent_storage.safety_data.last_voted_round := by
  unfold SafetyRules.guarded_sign_timeout
  split
  · exact Nat.le_refl _
  dsimp only
  split
  · exact Nat.le_refl _
  split
  · exact Nat.le_refl _
  split
  · exact Nat.le_refl _
  split
  · split
    · exact Nat.le_refl _
    rename_i xl sd1 hlvr
    obtain ⟨hlt, hs⟩ := vaulvr_ok_inv hlvr
    subst hs
    split <;> (dsimp only [SafetyRules.set_safety_data]; omega)
  · split <;> exact Nat.le_refl _

theorem step_lvr_mono (o : ExternalOracle) (s : SafetyRules) (c : SafetyCommand) :
    s.persistent_storage.safety_data.last_voted_round ≤
      (s.step o c).persistent_storage.safety_data.last_voted_round := by
  cases c with
  | vote m => exact cas_vote_lvr_mono o s m
  | proposal bd =>
      unfold SafetyRules.step
      dsimp only
      rw [sign_proposal_snd]
  | timeout t => exact st_lvr_mono s t
  | commit li nli =>
      unfold SafetyRules.step
      dsimp only
      rw [commit_vote_snd]

theorem run_lvr_mono (o : ExternalOracle) (s : SafetyRules) (l : List SafetyCommand) :
    s.persistent_storage.safety_data.last_voted_round ≤
      (s.run o l).persistent_storage.safety_data.last_voted_round := by
  induction l generalizing s with
  | nil => exact Nat.le_refl _
  | cons c rest ih =>
      exact Nat.le_trans (step_lvr_mono o s c) (ih (s.step o c))

theorem verify_author_ok {s : SafetyRules} {sg : ConfigurableValidatorSigner}
    {a : Option Nat}
    (h1 : s.validator_signer = some sg) (ha : a = some sg.author) :
    s.verify_author a = .ok () := by
  unfold SafetyRules.verify_author SafetyRules.signer
  rw [h1, ha]
  dsimp only
  rw [if_neg]
  simp

theorem verify_qc_ok {o : ExternalOracle} {s : SafetyRules} {qc : QuorumCert}
    {es : EpochState}
    (hes : s.epoch_state = some es) (hq : o.qc_verify qc es.verifier = true) :
    s.verify_qc o qc = .ok () := by
  unfold SafetyRules.verify_qc SafetyRules.epoch_state_res
  rw [hes]
  dsimp only
  rw [if_pos hq]

/-! Claim theorems. -/

/-- C2: second voting rule.  `verify_and_update_preferred_round` fails with
`IncorrectPreferredRound(c, preferred_round)` exactly when the QC's certified round
`c` is below `preferred_round`; otherwise the QC is observed, raising
`one_chain_round` to `c` and `preferred_round` to the QC's parent round whenever
those exceed the current values.  Under the flows: when the checks before the rule
pass, both `construct_and_sign_vote` and `sign_proposal` fail with that same error
for a QC with `c < preferred_round`. -/
theorem C2_second_voting_rule :
    (∀ (qc : QuorumCert) (sd : SafetyData),
      qc.certified_block.round < sd.preferred_round →
      SafetyRules.verify_and_update_preferred_round qc sd =
        .error (.IncorrectPreferredRound qc.certified_block.round sd.preferred_round)) ∧
    (∀ (qc : QuorumCert) (sd : SafetyData),
      sd.preferred_round ≤ qc.certified_block.round →
      SafetyRules.verify_and_update_preferred_round qc sd =
        .ok ((SafetyRules.observe_qc qc sd).1,
          { sd with
            one_chain_round := max sd.one_chain_round qc.certified_block.round,
            preferred_round := max sd.preferred_round qc.parent_block.round })) ∧
    (∀ (o : ExternalOracle) (s : SafetyRules) (m : MaybeSignedVoteProposal)
        (sg : ConfigurableValidatorSigner) (vd : VoteData),
      s.validator_signer = some sg →
      SafetyRules.verify_proposal o s m = .ok vd →
      (∀ w, s.persistent_storage.safety_data.last_vote = some w →
        w.vote_data.proposed.round ≠ m.vote_proposal.block.round) →
      m.vote_proposal.block.quorum_cert.certified_block.round <
        s.persistent_storage.safety_data.preferred_round →
      SafetyRules.guarded_construct_and_sign_vote o s m =
        (.error (.IncorrectPreferredRound
            m.vote_proposal.block.quorum_cert.certified_block.round
            s.persistent_storage.safety_data.preferred_round), s)) ∧
    (∀ (o : ExternalOracle) (s : SafetyRules) (bd : BlockData)
        (sg : ConfigurableValidatorSigner) (es : EpochState),
      s.validator_signer = some sg →
      bd.author = some sg.author →
      bd.epoch = s.persistent_storage.safety_data.epoch →
      s.persistent_storage.safety_data.last_voted_round < bd.round →
      s.epoch_state = some es →
      o.qc_verify bd.quorum_cert es.verifier = true →
      bd.quorum_cert.certified_block.round <
        s.persistent_storage.safety_data.preferred_round →
      SafetyRules.guarded_sign_proposal o s bd =
        (.error (.IncorrectPreferredRound bd.quorum_cert.certified_block.round
            s.persistent_storage.safety_data.preferred_round), s)) := by
  refine ⟨?_, ?_, ?_, ?_⟩
  · intro qc sd h
    exact vaupr_lt h
  · intro qc sd h
    rw [vaupr_ge h, ← observe_qc_snd qc sd]
  · intro o s m sg vd h1 h2 hnr hc
    rw [cas_vote_no_replay h1 h2 hnr]
    exact var_pr_err hc
  · intro o s bd sg es h1 ha he hr hes hq hc
    unfold SafetyRules.guarded_sign_proposal SafetyRules.signer
    rw [h1]
    dsimp only
    rw [verify_author_ok h1 ha]
    dsimp only
    rw [verify_epoch_ok he]
    dsimp only
    rw [if_neg (by omega)]
    rw [verify_qc_ok hes hq]
    dsimp only
    rw [vaupr_lt hc]

/-- C2 witness: evaluating the second voting rule and both flows on concrete
inputs. -/
theorem C2_witness :
    SafetyRules.verify_and_update_preferred_round ⟨bi 1 2 20, bi 1 1 10⟩
        ⟨1, 5, 3, 4, none⟩ = .error (.IncorrectPreferredRound 2 3) ∧
    SafetyRules.verify_and_update_preferred_round ⟨bi 1 6 60, bi 1 5 50⟩
        ⟨1, 5, 3, 4, none⟩ = .ok (true, ⟨1, 5, 5, 6, none⟩) ∧
    SafetyRules.guarded_construct_and_sign_vote trueOracle exState cexProposal =
      (.error (.IncorrectPreferredRound 2 3), exState) ∧
    SafetyRules.guarded_sign_proposal trueOracle exState ⟨1, 6, some 7, ⟨bi 1 2 20, bi 1 1 10⟩⟩ =
      (.error (.IncorrectPreferredRound 2 3), exState) := by
  refine ⟨C2_second_voting_rule.1 _ _ (by decide), ?_, ?_, ?_⟩
  · have h := C2_second_voting_rule.2.1 ⟨bi 1 6 60, bi 1 5 50⟩ ⟨1, 5, 3, 4, none⟩
      (by decide)
    rw [h]
    decide
  · exact C2_second_voting_rule.2.2.1 trueOracle exState cexProposal (.signer 7 70)
      cexProposal.vote_proposal.vote_data_ordering_only rfl (by decide)
      (by intro w hw; cases hw) (by decide)
  · exact C2_second_voting_rule.2.2.2 trueOracle exState
      ⟨1, 6, some 7, ⟨bi 1 2 20, bi 1 1 10⟩⟩ (.signer 7 70) ⟨1, [(7, 70)]⟩
      rfl rfl rfl (by decide) rfl rfl (by decide)

/-- C3: three-chain commit rule.  `construct_ledger_info` commits the QC's parent
block exactly when the three rounds are consecutive, returns an empty `BlockInfo`
otherwise, and the checked `+1` fails with `IncorrectRound` when a round whose
increment is evaluated sits at `u64::MAX` (the second increment is evaluated only
when the first chain link holds, mirroring the short-circuiting `&&`). -/
theorem C3_three_chain_commit (b : Block) (h : HashValue)
    (hp : b.quorum_cert.parent_block.round ≤ U64_MAX)
    (hc : b.quorum_cert.certified_block.round ≤ U64_MAX) :
    SafetyRules.construct_ledger_info b h =
      if b.quorum_cert.parent_block.round = U64_MAX then
        .error (.IncorrectRound b.quorum_cert.parent_block.round)
      else if b.quorum_cert.parent_block.round + 1 =
            b.quorum_cert.certified_block.round ∧
          b.quorum_cert.certified_block.round = U64_MAX then
        .error (.IncorrectRound b.quorum_cert.certified_block.round)
      else
        .ok ⟨if b.quorum_cert.parent_block.round + 1 =
              b.quorum_cert.certified_block.round ∧
            b.quorum_cert.certified_block.round + 1 = b.round then
            b.quorum_cert.parent_block
          else BlockInfo.empty, h⟩ := by
  unfold SafetyRules.construct_ledger_info next_round
  dsimp only
  by_cases h0 : b.quorum_cert.parent_block.round = U64_MAX
  · have hn : ¬ b.quorum_cert.parent_block.round < U64_MAX := by omega
    rw [if_neg hn, if_pos h0]
  · have hy : b.quorum_cert.parent_block.round < U64_MAX := by omega
    rw [if_pos hy, if_neg h0]
    dsimp only
    by_cases h1 : b.quorum_cert.parent_block.round + 1 =
        b.quorum_cert.certified_block.round
    · rw [if_pos h1]
      by_cases h2 : b.quorum_cert.certified_block.round = U64_MAX
      · have hn2 : ¬ b.quorum_cert.certified_block.round < U64_MAX := by omega
        rw [if_neg hn2, if_pos ⟨h1, h2⟩]
      · have hy2 : b.quorum_cert.certified_block.round < U64_MAX := by omega
        have hn3 : ¬ (b.quorum_cert.parent_block.round + 1 =
            b.quorum_cert.certified_block.round ∧
            b.quorum_cert.certified_block.round = U64_MAX) := by tauto
        rw [if_pos hy2, if_neg hn3]
        dsimp only
        by_cases h3 : b.quorum_cert.certified_block.round + 1 = b.round
        · rw [if_pos h3, if_pos ⟨h1, h3⟩]
        · have hn4 : ¬ (b.quorum_cert.parent_block.round + 1 =
              b.quorum_cert.certified_block.round ∧
              b.quorum_cert.certified_block.round + 1 = b.round) := by tauto
          rw [if_neg h3, if_neg hn4]
    · have hn5 : ¬ (b.quorum_cert.parent_block.round + 1 =
          b.quorum_cert.certified_block.round ∧
          b.quorum_cert.certified_block.round = U64_MAX) := by tauto
      have hn6 : ¬ (b.quorum_cert.parent_block.round + 1 =
          b.quorum_cert.certified_block.round ∧
          b.quorum_cert.certified_block.round + 1 = b.round) := by tauto
      rw [if_neg h1, if_neg hn5, if_neg hn6]

/-- C3 witness: a commit on three consecutive rounds, no commit on a gap, and an
`IncorrectRound` failure when the parent round sits at `u64::MAX`. -/
theorem C3_witness :
    SafetyRules.construct_ledger_info ⟨9, ⟨1, 10, some 7, ⟨bi 1 9 9, bi 1 8 8⟩⟩⟩
        ⟨exVoteData⟩ = .ok ⟨bi 1 8 8, ⟨exVoteData⟩⟩ ∧
    SafetyRules.construct_ledger_info ⟨9, ⟨1, 10, some 7, ⟨bi 1 9 9, bi 1 7 7⟩⟩⟩
        ⟨exVoteData⟩ = .ok ⟨BlockInfo.empty, ⟨exVoteData⟩⟩ ∧
    SafetyRules.construct_ledger_info
        ⟨9, ⟨1, 10, some 7, ⟨bi 1 9 9, ⟨1, U64_MAX, 8, 0, none⟩⟩⟩⟩ ⟨exVoteData⟩ =
      .error (.IncorrectRound U64_MAX) := by
  refine ⟨?_, ?_, ?_⟩
  · have h := C3_three_chain_commit ⟨9, ⟨1, 10, some 7, ⟨bi 1 9 9, bi 1 8 8⟩⟩⟩
      ⟨exVoteData⟩ (by decide) (by decide)
    rw [h]
    decide
  · have h := C3_three_chain_commit ⟨9, ⟨1, 10, some 7, ⟨bi 1 9 9, bi 1 7 7⟩⟩⟩
      ⟨exVoteData⟩ (by decide) (by decide)
    rw [h]
    decide
  · have h := C3_three_chain_commit
      ⟨9, ⟨1, 10, some 7, ⟨bi 1 9 9, ⟨1, U64_MAX, 8, 0, none⟩⟩⟩⟩ ⟨exVoteData⟩
      (by decide) (by decide)
    rw [h]
    decide

/-- C4: replay idempotence.  If a cached `last_vote` exists and its proposed round
equals the proposed block's round, `construct_and_sign_vote` returns the cached
vote unchanged and leaves the whole engine state (hence the persisted SafetyData)
untouched, so a repeat call from the resulting state returns the identical vote. -/
theorem C4_replay_idempotent (o : ExternalOracle) (s : SafetyRules)
    (m : MaybeSignedVoteProposal) (sg : ConfigurableValidatorSigner) (vd : VoteData)
    (v : Vote)
    (h1 : s.validator_signer = some sg)
    (h2 : SafetyRules.verify_proposal o s m = .ok vd)
    (h3 : s.persistent_storage.safety_data.last_vote = some v)
    (h4 : v.vote_data.proposed.round = m.vote_proposal.block.round) :
    SafetyRules.guarded_construct_and_sign_vote o s m = (.ok v, s) ∧
    SafetyRules.guarded_construct_and_sign_vote o
        (SafetyRules.guarded_construct_and_sign_vote o s m).2 m = (.ok v, s) := by
  have h := cas_vote_replay h1 h2 h3 h4
  refine ⟨h, ?_⟩
  rw [h]
  exact h

/-- C4 witness: a state holding a cached vote for round 5 returns exactly that vote
on a round-5 proposal, twice, with the state unchanged. -/
theorem C4_witness :
    SafetyRules.guarded_construct_and_sign_vote trueOracle replayState
        replayProposal = (.ok exVote, replayState) ∧
    SafetyRules.guarded_construct_and_sign_vote trueOracle
        (SafetyRules.guarded_construct_and_sign_vote trueOracle replayState
          replayProposal).2 replayProposal = (.ok exVote, replayState) :=
  C4_replay_idempotent trueOracle replayState replayProposal (.signer 7 70)
    replayProposal.vote_proposal.vote_data_ordering_only exVote rfl (by decide)
    (by decide) (by decide)

/-- C8: sign_proposal frame.  No call to `sign_proposal`, successful or failed,
changes the engine state: the persistent storage (and in particular the stored
SafetyData, despite the in-memory preferred-round update) is exactly as before. -/
theorem C8_sign_proposal_frame (o : ExternalOracle) (s : SafetyRules)
    (bd : BlockData) :
    (SafetyRules.guarded_sign_proposal o s bd).2 = s :=
  sign_proposal_snd o s bd

/-- C10: sign_commit_vote frame.  `sign_commit_vote` leaves the engine state
unchanged, its result does not depend on the stored SafetyData (no epoch or round
voting rule is applied), and repeating the identical call from the resulting state
returns the identical result. -/
theorem C10_sign_commit_vote_frame :
    (∀ (o : ExternalOracle) (s : SafetyRules) (li : LedgerInfoWithSignatures)
        (nli : LedgerInfo),
      (SafetyRules.guarded_sign_commit_vote o s li nli).2 = s) ∧
    (∀ (o : ExternalOracle) (s : SafetyRules) (li : LedgerInfoWithSignatures)
        (nli : LedgerInfo) (sd2 : SafetyData),
      (SafetyRules.guarded_sign_commit_vote o (s.set_safety_data sd2) li nli).1 =
        (SafetyRules.guarded_sign_commit_vote o s li nli).1) ∧
    (∀ (o : ExternalOracle) (s : SafetyRules) (li : LedgerInfoWithSignatures)
        (nli : LedgerInfo),
      SafetyRules.guarded_sign_commit_vote o
          (SafetyRules.guarded_sign_commit_vote o s li nli).2 li nli =
        SafetyRules.guarded_sign_commit_vote o s li nli) := by
  refine ⟨commit_vote_snd, ?_, ?_⟩
  · intro o s li nli sd2
    unfold SafetyRules.guarded_sign_commit_vote
    rw [show (s.set_safety_data sd2).signer = s.signer from rfl]
    cases hsg : s.signer with
    | error e => rfl
    | ok sgn =>
        dsimp only
        by_cases hA : BlockInfo.is_ordered_only li.ledger_info.commit_info = false
        · rw [if_pos hA, if_pos hA]
        · rw [if_neg hA, if_neg hA]
          by_cases hB : BlockInfo.match_ordered_only li.ledger_info.commit_info
              nli.commit_info = false
          · rw [if_pos hB, if_pos hB]
          · rw [if_neg hB, if_neg hB]
            rw [show (s.set_safety_data sd2).epoch_state_res = s.epoch_state_res
              from rfl]
            cases hes : s.epoch_state_res with
            | error e => rfl
            | ok es =>
                dsimp only
                by_cases hC : o.li_sigs_verify li es.verifier = false
                · rw [if_pos hC, if_pos hC]
                · rw [if_neg hC, if_neg hC]
                  rw [show (s.set_safety_data sd2).sign (.ledger_info nli) =
                    s.sign (.ledger_info nli) from rfl]
                  cases s.sign (.ledger_info nli) <;> rfl
  · intro o s li nli
    rw [commit_vote_snd]

/-- C1 counterexample: at a state with `last_voted_round = 5` and
`preferred_round = 3`, a round-4 proposal whose QC certifies round 2 passes
`verify_proposal` and misses the replay cache, and its round 4 is at most the last
voted round 5; yet `construct_and_sign_vote` fails with
`IncorrectPreferredRound(2, 3)` — not `IncorrectLastVotedRound(4, 5)` as claimed —
because the second voting rule is checked first. -/
theorem C1_counterexample :
    (SafetyRules.verify_proposal trueOracle exState cexProposal).isOk = true ∧
    exState.persistent_storage.safety_data.last_vote = none ∧
    cexProposal.vote_proposal.block.round ≤
      exState.persistent_storage.safety_data.last_voted_round ∧
    (SafetyRules.guarded_construct_and_sign_vote trueOracle exState cexProposal).1 =
      .error (.IncorrectPreferredRound 2 3) ∧
    (SafetyRules.guarded_construct_and_sign_vote trueOracle exState cexProposal).1 ≠
      .error (.IncorrectLastVotedRound 4 5) := by
  decide

/-- C1 (amended): first voting rule.  For a call that misses the replay cache and
whose QC passes the preferred-round rule, a proposed round at most
`last_voted_round` fails with exactly `IncorrectLastVotedRound(r, last_voted_round)`
(when the QC violates the preferred-round rule the call fails with
`IncorrectPreferredRound` instead); every successful non-replay call sets
`last_voted_round` to the proposed round and persists it (together with the vote)
in the returned state; `last_voted_round` as observed by `consensus_state` is
non-decreasing across any sequence of signing operations. -/
theorem C1_first_voting_rule :
    (∀ (o : ExternalOracle) (s : SafetyRules) (m : MaybeSignedVoteProposal)
        (sg : ConfigurableValidatorSigner) (vd : VoteData),
      s.validator_signer = some sg →
      SafetyRules.verify_proposal o s m = .ok vd →
      (∀ w, s.persistent_storage.safety_data.last_vote = some w →
        w.vote_data.proposed.round ≠ m.vote_proposal.block.round) →
      s.persistent_storage.safety_data.preferred_round ≤
        m.vote_proposal.block.quorum_cert.certified_block.round →
      m.vote_proposal.block.round ≤
        s.persistent_storage.safety_data.last_voted_round →
      SafetyRules.guarded_construct_and_sign_vote o s m =
        (.error (.IncorrectLastVotedRound m.vote_proposal.block.round
            s.persistent_storage.safety_data.last_voted_round), s)) ∧
    (∀ (o : ExternalOracle) (s : SafetyRules) (m : MaybeSignedVoteProposal)
        (v : Vote) (s2 : SafetyRules),
      (∀ w, s.persistent_storage.safety_data.last_vote = some w →
        w.vote_data.proposed.round ≠ m.vote_proposal.block.round) →
      SafetyRules.guarded_construct_and_sign_vote o s m = (.ok v, s2) →
      s2.persistent_storage.safety_data.last_voted_round =
        m.vote_proposal.block.round ∧
      s.persistent_storage.safety_data.last_voted_round <
        m.vote_proposal.block.round ∧
      s2.persistent_storage.safety_data.last_vote = some v) ∧
    (∀ (o : ExternalOracle) (s : SafetyRules) (l : List SafetyCommand),
      s.persistent_storage.safety_data.last_voted_round ≤
        (s.run o l).persistent_storage.safety_data.last_voted_round) ∧
    (∀ (s : SafetyRules),
      (SafetyRules.guarded_consensus_state s).1 =
        .ok ⟨s.persistent_storage.safety_data, s.persistent_storage.waypoint,
          s.validator_signer.isSome⟩) := by
  refine ⟨?_, ?_, run_lvr_mono, fun s => rfl⟩
  · intro o s m sg vd h1 h2 hnr hc hr
    rw [cas_vote_no_replay h1 h2 hnr]
    exact var_lvr_err hc hr
  · intro o s m v s2 hnr hok
    unfold SafetyRules.guarded_construct_and_sign_vote at hok
    split at hok
    · cases hok
    split at hok
    · cases hok
    split at hok
    · rename_i w hw
      rw [if_neg (hnr w hw)] at hok
      obtain ⟨hlt, hle, hs2⟩ := var_ok_inv hok
      subst hs2
      exact ⟨rfl, hlt, rfl⟩
    · obtain ⟨hlt, hle, hs2⟩ := var_ok_inv hok
      subst hs2
      exact ⟨rfl, hlt, rfl⟩

/-- C1 witness: a round-4 proposal with an acceptable QC against
`last_voted_round = 5` fails with `IncorrectLastVotedRound(4, 5)`, and
`last_voted_round` does not decrease over a concrete sequence of requests. -/
theorem C1_witness :
    SafetyRules.guarded_construct_and_sign_vote trueOracle exState lvrProposal =
      (.error (.IncorrectLastVotedRound 4 5), exState) ∧
    exState.persistent_storage.safety_data.last_voted_round ≤
      (exState.run trueOracle [.vote freshProposal, .timeout ⟨1, 9⟩]).persistent_storage.safety_data.last_voted_round := by
  constructor
  · exact C1_first_voting_rule.1 trueOracle exState lvrProposal (.signer 7 70)
      lvrProposal.vote_proposal.vote_data_ordering_only rfl (by decide)
      (by intro w hw; cases hw) (by decide) (by decide)
  · exact C1_first_voting_rule.2.2.1 trueOracle exState
      [.vote freshProposal, .timeout ⟨1, 9⟩]

/-- Signing never produces a voting-rule error: with a signer installed the only
signing failure is a missing storage handle. -/
theorem sign_not_rule_err {s : SafetyRules} {sg : ConfigurableValidatorSigner}
    {msg : SignMessage}
    (h1 : s.validator_signer = some sg) :
    (∀ a b, s.sign msg ≠ .error (.IncorrectPreferredRound a b)) ∧
    (∀ a b, s.sign msg ≠ .error (.IncorrectLastVotedRound a b)) := by
  constructor <;> intro a b h <;> obtain ⟨d, hd⟩ := sign_err_shape2 h1 h <;> cases hd

/-- C7 counterexample: at a state with `preferred_round = 3` and
`last_voted_round = 5`, a round-2 timeout (signer present, epoch matching) has
`round < last_voted_round` yet fails with `IncorrectPreferredRound(2, 3)`, not
`IncorrectLastVotedRound(2, 5)` as the claimed iff requires. -/
theorem C7_counterexample :
    exState.validator_signer.isSome = true ∧
    (⟨1, 2⟩ : Timeout).epoch = exState.persistent_storage.safety_data.epoch ∧
    (⟨1, 2⟩ : Timeout).round <
      exState.persistent_storage.safety_data.last_voted_round ∧
    (SafetyRules.guarded_sign_timeout exState ⟨1, 2⟩).1 ≠
      .error (.IncorrectLastVotedRound 2 5) ∧
    (SafetyRules.guarded_sign_timeout exState ⟨1, 2⟩).1 =
      .error (.IncorrectPreferredRound 2 3) := by
  decide

/-- C7 (amended): sign_timeout raises-iff conditions with the preferred-round check
taking precedence.  After a passing epoch check: the call fails with
`IncorrectPreferredRound` iff `round ≤ preferred_round`; it fails with
`IncorrectLastVotedRound` iff `preferred_round < round < last_voted_round`; when
`preferred_round < round = last_voted_round` it signs with SafetyData neither
modified nor persisted; when `round` exceeds both it persists
`last_voted_round := round` before signing. -/
theorem C7_sign_timeout_rules (s : SafetyRules) (t : Timeout)
    (sg : ConfigurableValidatorSigner)
    (h1 : s.validator_signer = some sg)
    (h2 : t.epoch = s.persistent_storage.safety_data.epoch) :
    ((SafetyRules.guarded_sign_timeout s t).1 =
        .error (.IncorrectPreferredRound t.round
          s.persistent_storage.safety_data.preferred_round) ↔
      t.round ≤ s.persistent_storage.safety_data.preferred_round) ∧
    ((SafetyRules.guarded_sign_timeout s t).1 =
        .error (.IncorrectLastVotedRound t.round
          s.persistent_storage.safety_data.last_voted_round) ↔
      (s.persistent_storage.safety_data.preferred_round < t.round ∧
        t.round < s.persistent_storage.safety_data.last_voted_round)) ∧
    (s.persistent_storage.safety_data.preferred_round < t.round →
      t.round = s.persistent_storage.safety_data.last_voted_round →
      SafetyRules.guarded_sign_timeout s t = (s.sign (.timeout t), s)) ∧
    (s.persistent_storage.safety_data.preferred_round < t.round →
      s.persistent_storage.safety_data.last_voted_round < t.round →
      SafetyRules.guarded_sign_timeout s t =
        ((s.set_safety_data { s.persistent_storage.safety_data with
            last_voted_round := t.round }).sign (.timeout t),
          s.set_safety_data { s.persistent_storage.safety_data with
            last_voted_round := t.round })) := by
  rcases Nat.lt_or_ge s.persistent_storage.safety_data.preferred_round t.round
    with hpr | hpr
  · rcases Nat.lt_trichotomy t.round
      s.persistent_storage.safety_data.last_voted_round with hlv | hlv | hlv
    · rw [st_lvr_err h1 h2 hpr hlv]
      refine ⟨?_, ?_, ?_, ?_⟩
      · exact ⟨fun hx => by simp at hx, fun hx => absurd hx (by omega)⟩
      · exact ⟨fun _ => ⟨hpr, hlv⟩, fun _ => rfl⟩
      · exact fun _ h4 => absurd h4 (by omega)
      · exact fun _ h4 => absurd h4 (by omega)
    · rw [st_eq_sign h1 h2 hpr hlv]
      refine ⟨?_, ?_, fun _ _ => rfl, ?_⟩
      · exact ⟨fun hx => absurd hx ((sign_not_rule_err h1).1 _ _),
          fun hx => absurd hx (by omega)⟩
      · exact ⟨fun hx => absurd hx ((sign_not_rule_err h1).2 _ _),
          fun hx => absurd hx.2 (by omega)⟩
      · exact fun _ h4 => absurd h4 (by omega)
    · rw [st_gt_sign h1 h2 hpr hlv]
      have h1b : (s.set_safety_data { s.persistent_storage.safety_data with
          last_voted_round := t.round }).validator_signer = some sg := h1
      refine ⟨?_, ?_, ?_, fun _ _ => rfl⟩
      · exact ⟨fun hx => absurd hx ((sign_not_rule_err h1b).1 _ _),
          fun hx => absurd hx (by omega)⟩
      · exact ⟨fun hx => absurd hx ((sign_not_rule_err h1b).2 _ _),
          fun hx => absurd hx.2 (by omega)⟩
      · exact fun _ h4 => absurd h4 (by omega)
  · rw [st_pr_err h1 h2 hpr]
    refine ⟨?_, ?_, ?_, ?_⟩
    · exact ⟨fun _ => hpr, fun _ => rfl⟩
    · exact ⟨fun hx => by simp at hx, fun hx => absurd hx.1 (by omega)⟩
    · exact fun h3 _ => absurd h3 (by omega)
    · exact fun h3 _ => absurd h3 (by omega)

/-! Helper lemmas about the initialization flow. -/

theorem reconcile_key_pers (s3 : SafetyRules) (es : EpochState) :
    (SafetyRules.reconcile_key s3 es).2.persistent_storage =
      s3.persistent_storage ∧
    (SafetyRules.reconcile_key s3 es).2.epoch_state = s3.epoch_state := by
  unfold SafetyRules.reconcile_key
  repeat (first | (exact ⟨rfl, rfl⟩) | (dsimp only) | split)

theorem reconcile_key_err {s3 : SafetyRules} {es : EpochState} {e : Error}
    {s' : SafetyRules}
    (h : SafetyRules.reconcile_key s3 es = (.error e, s')) :
    ((∃ a, e = .ValidatorNotInSet a) ∨ (∃ d, e = .ValidatorKeyNotFound d)) ∧
    s'.validator_signer = none := by
  unfold SafetyRules.reconcile_key at h
  dsimp only at h
  split at h
  · cases h
    exact ⟨.inl ⟨_, rfl⟩, rfl⟩
  split at h
  · cases h
  split at h
  · split at h
    · cases h
    · cases h
      exact ⟨.inr ⟨_, rfl⟩, rfl⟩
    · rename_i e1 hno hck
      obtain ⟨d, hd⟩ := consensus_key_err_shape hck
      exact (hno d hd).elim
  · split at h
    · cases h
    · cases h
      exact ⟨.inr ⟨_, rfl⟩, rfl⟩

theorem epoch_update_gt (s1 : SafetyRules) (es : EpochState)
    (h : es.epoch < s1.persistent_storage.safety_data.epoch) :
    (SafetyRules.epoch_update s1 es).2 = s1 ∧
    ∃ msg, (SafetyRules.epoch_update s1 es).1 = .error (.NotInitialized msg) := by
  unfold SafetyRules.epoch_update
  rw [if_pos h]
  exact ⟨rfl, ⟨_, rfl⟩⟩

theorem epoch_update_lt (s1 : SafetyRules) (es : EpochState)
    (h : s1.persistent_storage.safety_data.epoch < es.epoch) :
    SafetyRules.epoch_update s1 es =
      SafetyRules.reconcile_key
        ((s1.set_safety_data ⟨es.epoch, 0, 0, 0, none⟩).set_epoch_state es) es := by
  unfold SafetyRules.epoch_update
  rw [if_neg (by omega), if_pos h]

theorem epoch_update_eq (s1 : SafetyRules) (es : EpochState)
    (h : s1.persistent_storage.safety_data.epoch = es.epoch) :
    SafetyRules.epoch_update s1 es =
      SafetyRules.reconcile_key (s1.set_epoch_state es) es := by
  unfold SafetyRules.epoch_update
  rw [if_neg (by omega), if_neg (by omega)]

theorem init_reduce {o : ExternalOracle} {s : SafetyRules} {p : EpochChangeProof}
    {li : LedgerInfoWithSignatures} {es : EpochState} {w' : Waypoint}
    (h1 : o.proof_verify p s.persistent_storage.waypoint = .ok li)
    (h2 : li.ledger_info.next_epoch_state = some es)
    (h3 : o.epoch_boundary li.ledger_info = .ok w') :
    SafetyRules.guarded_initialize_op o s p =
      SafetyRules.epoch_update
        (if w'.version > s.persistent_storage.waypoint.version
          then s.set_waypoint w' else s) es := by
  unfold SafetyRules.guarded_initialize_op
  rw [h1]
  dsimp only
  rw [h2]
  dsimp only
  rw [h3]

theorem epoch_update_sd_cases (s1 : SafetyRules) (es : EpochState) :
    (SafetyRules.epoch_update s1 es).2.persistent_storage.safety_data =
      s1.persistent_storage.safety_data ∨
    (SafetyRules.epoch_update s1 es).2.persistent_storage.safety_data =
      ⟨es.epoch, 0, 0, 0, none⟩ := by
  unfold SafetyRules.epoch_update
  split
  · exact .inl rfl
  · rw [(reconcile_key_pers _ es).1]
    split
    · exact .inr rfl
    · exact .inl rfl

theorem init_sd_cases (o : ExternalOracle) (s : SafetyRules) (p : EpochChangeProof) :
    (SafetyRules.guarded_initialize_op o s p).2.persistent_storage.safety_data =
      s.persistent_storage.safety_data ∨
    ∃ e, (SafetyRules.guarded_initialize_op o s p).2.persistent_storage.safety_data =
      ⟨e, 0, 0, 0, none⟩ := by
  unfold SafetyRules.guarded_initialize_op
  split
  · exact .inl rfl
  split
  · exact .inl rfl
  split
  · exact .inl rfl
  rename_i xa es ha xb nw hb
  rcases epoch_update_sd_cases
      (if nw.version > s.persistent_storage.waypoint.version
        then s.set_waypoint nw else s) es with h | h
  · rw [h]
    split <;> exact .inl rfl
  · rw [h]
    exact .inr ⟨es.epoch, rfl⟩

theorem reconcile_key_spec (s3 : SafetyRules) (es : EpochState) {e : Error}
    {s' : SafetyRules}
    (h : SafetyRules.reconcile_key s3 es = (.error e, s')) :
    ((∃ a, e = .ValidatorNotInSet a) ∨ (∃ d, e = .ValidatorKeyNotFound d)) ∧
    s'.validator_signer = none ∧
    s'.persistent_storage = s3.persistent_storage ∧
    s'.epoch_state = s3.epoch_state := by
  have hp := reconcile_key_pers s3 es
  rw [h] at hp
  exact ⟨(reconcile_key_err h).1, (reconcile_key_err h).2, hp.1, hp.2⟩

theorem var_inv {s : SafetyRules} {m : MaybeSignedVoteProposal} {vd : VoteData}
    (hinv : s.persistent_storage.safety_data.preferred_round ≤
      s.persistent_storage.safety_data.one_chain_round)
    (hqc : m.vote_proposal.block.quorum_cert.parent_block.round ≤
      m.vote_proposal.block.quorum_cert.certified_block.round) :
    (s.vote_after_replay m vd).2.persistent_storage.safety_data.preferred_round ≤
      (s.vote_after_replay m vd).2.persistent_storage.safety_data.one_chain_round
      := by
  rcases hres : s.vote_after_replay m vd with ⟨r, s2⟩
  cases r with
  | error e =>
      unfold SafetyRules.vote_after_replay at hres
      split at hres
      · cases hres
        exact hinv
      split at hres
      · cases hres
        exact hinv
      split at hres
      · cases hres
        exact hinv
      split at hres
      · cases hres
        exact hinv
      split at hres
      · cases hres
        exact hinv
      cases hres
  | ok v =>
      obtain ⟨hlt, hle, hs2⟩ := var_ok_inv hres
      subst hs2
      dsimp only [SafetyRules.set_safety_data]
      exact max_le_max hinv hqc

/-- C5: SafetyData invariant.  Each of the four engine operations preserves
`preferred_round ≤ one_chain_round`, given that the QC carried by the input (the
only QC ever observed) satisfies `parent_block.round ≤ certified_block.round`. -/
theorem C5_preferred_le_one_chain :
    (∀ (o : ExternalOracle) (s : SafetyRules) (m : MaybeSignedVoteProposal),
      s.persistent_storage.safety_data.preferred_round ≤
        s.persistent_storage.safety_data.one_chain_round →
      m.vote_proposal.block.quorum_cert.parent_block.round ≤
        m.vote_proposal.block.quorum_cert.certified_block.round →
      (SafetyRules.guarded_construct_and_sign_vote o s m).2.persistent_storage.safety_data.preferred_round ≤
        (SafetyRules.guarded_construct_and_sign_vote o s m).2.persistent_storage.safety_data.one_chain_round) ∧
    (∀ (o : ExternalOracle) (s : SafetyRules) (bd : BlockData),
      s.persistent_storage.safety_data.preferred_round ≤
        s.persistent_storage.safety_data.one_chain_round →
      (SafetyRules.guarded_sign_proposal o s bd).2.persistent_storage.safety_data.preferred_round ≤
        (SafetyRules.guarded_sign_proposal o s bd).2.persistent_storage.safety_data.one_chain_round) ∧
    (∀ (s : SafetyRules) (t : Timeout),
      s.persistent_storage.safety_data.preferred_round ≤
        s.persistent_storage.safety_data.one_chain_round →
      (SafetyRules.guarded_sign_timeout s t).2.persistent_storage.safety_data.preferred_round ≤
        (SafetyRules.guarded_sign_timeout s t).2.persistent_storage.safety_data.one_chain_round) ∧
    (∀ (o : ExternalOracle) (s : SafetyRules) (p : EpochChangeProof),
      s.persistent_storage.safety_data.preferred_round ≤
        s.persistent_storage.safety_data.one_chain_round →
      (SafetyRules.guarded_initialize_op o s p).2.persistent_storage.safety_data.preferred_round ≤
        (SafetyRules.guarded_initialize_op o s p).2.persistent_storage.safety_data.one_chain_round) := by
  refine ⟨?_, ?_, ?_, ?_⟩
  · intro o s m hinv hqc
    unfold SafetyRules.guarded_construct_and_sign_vote
    split
    · exact hinv
    split
    · exact hinv
    split
    · split
      · exact hinv
      · exact var_inv hinv hqc
    · exact var_inv hinv hqc
  · intro o s bd hinv
    rw [sign_proposal_snd]
    exact hinv
  · intro s t hinv
    unfold SafetyRules.guarded_sign_timeout
    split
    · exact hinv
    dsimp only
    split
    · exact hinv
    split
    · exact hinv
    split
    · exact hinv
    split
    · split
      · exact hinv
      rename_i xl sd1 hlvr
      obtain ⟨hlt, hs⟩ := vaulvr_ok_inv hlvr
      subst hs
      split <;> (dsimp only [SafetyRules.set_safety_data]; exact hinv)
    · split <;> exact hinv
  · intro o s p hinv
    rcases init_sd_cases o s p with h | ⟨e, h⟩
    · rw [h]
      exact hinv
    · rw [h]

/-- C5 witness: the invariant holds after a concrete successful vote (which raises
both rounds) and after a concrete epoch-advancing initialization (which resets
them). -/
theorem C5_witness :
    (SafetyRules.guarded_construct_and_sign_vote trueOracle exState freshProposal).2.persistent_storage.safety_data.preferred_round ≤
      (SafetyRules.guarded_construct_and_sign_vote trueOracle exState freshProposal).2.persistent_storage.safety_data.one_chain_round ∧
    (SafetyRules.guarded_initialize_op (initOracle exEpochLi7 ⟨5, 0⟩) exState ⟨0⟩).2.persistent_storage.safety_data.preferred_round ≤
      (SafetyRules.guarded_initialize_op (initOracle exEpochLi7 ⟨5, 0⟩) exState ⟨0⟩).2.persistent_storage.safety_data.one_chain_round :=
  ⟨C5_preferred_le_one_chain.1 trueOracle exState freshProposal (by decide)
      (by decide),
    C5_preferred_le_one_chain.2.2.2 (initOracle exEpochLi7 ⟨5, 0⟩) exState ⟨0⟩
      (by decide)⟩

/-- C6: initialize epoch reconciliation.  With a proof verifying against the stored
waypoint and carrying a next epoch state: a stale proof (stored epoch greater)
fails with `NotInitialized` leaving SafetyData unchanged; an advancing proof resets
SafetyData to the zeroed record of the new epoch; an equal-epoch proof leaves
SafetyData unchanged; and a second run of the same proof (verifying against the
possibly advanced waypoint) leaves SafetyData where the first run put it. -/
theorem C6_epoch_reconciliation (o : ExternalOracle) (s : SafetyRules)
    (p : EpochChangeProof) (li : LedgerInfoWithSignatures) (es : EpochState)
    (w' : Waypoint)
    (h1 : o.proof_verify p s.persistent_storage.waypoint = .ok li)
    (h2 : li.ledger_info.next_epoch_state = some es)
    (h3 : o.epoch_boundary li.ledger_info = .ok w') :
    (es.epoch < s.persistent_storage.safety_data.epoch →
      (∃ msg, (SafetyRules.guarded_initialize_op o s p).1 =
        .error (.NotInitialized msg)) ∧
      (SafetyRules.guarded_initialize_op o s p).2.persistent_storage.safety_data =
        s.persistent_storage.safety_data) ∧
    (s.persistent_storage.safety_data.epoch < es.epoch →
      (SafetyRules.guarded_initialize_op o s p).2.persistent_storage.safety_data =
        ⟨es.epoch, 0, 0, 0, none⟩) ∧
    (s.persistent_storage.safety_data.epoch = es.epoch →
      (SafetyRules.guarded_initialize_op o s p).2.persistent_storage.safety_data =
        s.persistent_storage.safety_data) ∧
    (o.proof_verify p
        (SafetyRules.guarded_initialize_op o s p).2.persistent_storage.waypoint =
        .ok li →
      (SafetyRules.guarded_initialize_op o
          (SafetyRules.guarded_initialize_op o s p).2 p).2.persistent_storage.safety_data =
        (SafetyRules.guarded_initialize_op o s p).2.persistent_storage.safety_data)
      := by
  have hred := init_reduce h1 h2 h3
  have hs1 : (if w'.version > s.persistent_storage.waypoint.version
      then s.set_waypoint w' else s).persistent_storage.safety_data =
      s.persistent_storage.safety_data := by
    split <;> rfl
  have hb : s.persistent_storage.safety_data.epoch < es.epoch →
      (SafetyRules.guarded_initialize_op o s p).2.persistent_storage.safety_data =
        ⟨es.epoch, 0, 0, 0, none⟩ := by
    intro h
    rw [hred]
    have hlt : (if w'.version > s.persistent_storage.waypoint.version
        then s.set_waypoint w' else s).persistent_storage.safety_data.epoch <
        es.epoch := by
      rw [hs1]
      exact h
    rw [epoch_update_lt _ _ hlt, (reconcile_key_pers _ _).1]
    rfl
  have hc : s.persistent_storage.safety_data.epoch = es.epoch →
      (SafetyRules.guarded_initialize_op o s p).2.persistent_storage.safety_data =
        s.persistent_storage.safety_data := by
    intro h
    rw [hred]
    have heq : (if w'.version > s.persistent_storage.waypoint.version
        then s.set_waypoint w' else s).persistent_storage.safety_data.epoch =
        es.epoch := by
      rw [hs1]
      exact h
    rw [epoch_update_eq _ _ heq, (reconcile_key_pers _ _).1]
    exact hs1
  have ha : es.epoch < s.persistent_storage.safety_data.epoch →
      (∃ msg, (SafetyRules.guarded_initialize_op o s p).1 =
        .error (.NotInitialized msg)) ∧
      (SafetyRules.guarded_initialize_op o s p).2.persistent_storage.safety_data =
        s.persistent_storage.safety_data := by
    intro h
    rw [hred]
    have hgt : es.epoch < (if w'.version > s.persistent_storage.waypoint.version
        then s.set_waypoint w' else s).persistent_storage.safety_data.epoch := by
      rw [hs1]
      exact h
    obtain ⟨hA, msg, hB⟩ := epoch_update_gt _ _ hgt
    refine ⟨⟨msg, hB⟩, ?_⟩
    rw [hA]
    exact hs1
  refine ⟨ha, hb, hc, ?_⟩
  intro h4
  have hs1b : ∀ (X : SafetyRules),
      (if w'.version > X.persistent_storage.waypoint.version
        then X.set_waypoint w' else X).persistent_storage.safety_data =
      X.persistent_storage.safety_data := by
    intro X
    split <;> rfl
  rw [init_reduce h4 h2 h3]
  rcases Nat.lt_trichotomy s.persistent_storage.safety_data.epoch es.epoch
    with hlt | heq | hgt
  · have hS := hb hlt
    have heq2 : (if w'.version >
        (SafetyRules.guarded_initialize_op o s p).2.persistent_storage.waypoint.version
        then (SafetyRules.guarded_initialize_op o s p).2.set_waypoint w'
        else (SafetyRules.guarded_initialize_op o s p).2).persistent_storage.safety_data.epoch = es.epoch := by
      rw [hs1b, hS]
    rw [epoch_update_eq _ _ heq2, (reconcile_key_pers _ _).1]
    exact hs1b _
  · have hS := hc heq
    have heq2 : (if w'.version >
        (SafetyRules.guarded_initialize_op o s p).2.persistent_storage.waypoint.version
        then (SafetyRules.guarded_initialize_op o s p).2.set_waypoint w'
        else (SafetyRules.guarded_initialize_op o s p).2).persistent_storage.safety_data.epoch = es.epoch := by
      rw [hs1b, hS, heq]
    rw [epoch_update_eq _ _ heq2, (reconcile_key_pers _ _).1]
    exact hs1b _
  · have hS := (ha hgt).2
    have hgt2 : es.epoch < (if w'.version >
        (SafetyRules.guarded_initialize_op o s p).2.persistent_storage.waypoint.version
        then (SafetyRules.guarded_initialize_op o s p).2.set_waypoint w'
        else (SafetyRules.guarded_initialize_op o s p).2).persistent_storage.safety_data.epoch := by
      rw [hs1b, hS]
      exact hgt
    rw [(epoch_update_gt _ _ hgt2).1]
    exact hs1b _

/-- C6 witness: initializing twice with the same epoch-2 proof from an epoch-1
state resets SafetyData once and then leaves it unchanged. -/
theorem C6_witness :
    (SafetyRules.guarded_initialize_op (initOracle exEpochLi7 ⟨5, 0⟩) exState
        ⟨0⟩).2.persistent_storage.safety_data = ⟨2, 0, 0, 0, none⟩ ∧
    (SafetyRules.guarded_initialize_op (initOracle exEpochLi7 ⟨5, 0⟩)
        (SafetyRules.guarded_initialize_op (initOracle exEpochLi7 ⟨5, 0⟩) exState
          ⟨0⟩).2 ⟨0⟩).2.persistent_storage.safety_data = ⟨2, 0, 0, 0, none⟩ := by
  have h := C6_epoch_reconciliation (initOracle exEpochLi7 ⟨5, 0⟩) exState ⟨0⟩
    exEpochLi7 ⟨2, [(7, 70)]⟩ ⟨5, 0⟩ rfl rfl rfl
  have hfirst := h.2.1 (by decide)
  refine ⟨hfirst, ?_⟩
  have hsecond := h.2.2.2 rfl
  rw [hsecond]
  exact hfirst

/-- C9: initialize is not atomic on key-reconciliation failure.  When the proof
verifies, carries a next epoch state, and advances the epoch, but the call then
fails, the failure can only be `ValidatorNotInSet` or `ValidatorKeyNotFound`, and
the already-performed effects survive: SafetyData stays reset to the new epoch, the
new epoch state stays installed in memory, any waypoint advance stays persisted —
only the validator signer is cleared. -/
theorem C9_init_nonatomic (o : ExternalOracle) (s : SafetyRules)
    (p : EpochChangeProof) (li : LedgerInfoWithSignatures) (es : EpochState)
    (w' : Waypoint)
    (h1 : o.proof_verify p s.persistent_storage.waypoint = .ok li)
    (h2 : li.ledger_info.next_epoch_state = some es)
    (h3 : o.epoch_boundary li.ledger_info = .ok w')
    (h4 : s.persistent_storage.safety_data.epoch < es.epoch)
    (h5 : (SafetyRules.guarded_initialize_op o s p).1.isOk = false) :
    ((∃ a, (SafetyRules.guarded_initialize_op o s p).1 =
        .error (.ValidatorNotInSet a)) ∨
      (∃ d, (SafetyRules.guarded_initialize_op o s p).1 =
        .error (.ValidatorKeyNotFound d))) ∧
    (SafetyRules.guarded_initialize_op o s p).2.persistent_storage.safety_data =
      ⟨es.epoch, 0, 0, 0, none⟩ ∧
    (SafetyRules.guarded_initialize_op o s p).2.epoch_state = some es ∧
    (SafetyRules.guarded_initialize_op o s p).2.validator_signer = none ∧
    (SafetyRules.guarded_initialize_op o s p).2.persistent_storage.waypoint =
      (if w'.version > s.persistent_storage.waypoint.version then w'
        else s.persistent_storage.waypoint) := by
  have hred := init_reduce h1 h2 h3
  have hs1 : (if w'.version > s.persistent_storage.waypoint.version
      then s.set_waypoint w' else s).persistent_storage.safety_data =
      s.persistent_storage.safety_data := by
    split <;> rfl
  have hlt : (if w'.version > s.persistent_storage.waypoint.version
      then s.set_waypoint w' else s).persistent_storage.safety_data.epoch <
      es.epoch := by
    rw [hs1]
    exact h4
  have hlt2 := epoch_update_lt _ _ hlt
  rw [hred, hlt2] at h5 ⊢
  rcases hrk : SafetyRules.reconcile_key
      (((if w'.version > s.persistent_storage.waypoint.version
          then s.set_waypoint w' else s).set_safety_data
            ⟨es.epoch, 0, 0, 0, none⟩).set_epoch_state es) es with ⟨r, s'⟩
  rw [hrk] at h5
  cases r with
  | ok u => simp [Except.isOk, Except.toBool] at h5
  | error e =>
      obtain ⟨hshape, hsgn, hpers, hes⟩ := reconcile_key_spec _ _ hrk
      refine ⟨?_, ?_, ?_, hsgn, ?_⟩
      · rcases hshape with ⟨a, ha⟩ | ⟨d, hd⟩
        · exact .inl ⟨a, by rw [ha]⟩
        · exact .inr ⟨d, by rw [hd]⟩
      · dsimp only
        rw [hpers]
        rfl
      · dsimp only
        rw [hes]
        rfl
      · dsimp only
        rw [hpers]
        by_cases hv : w'.version > s.persistent_storage.waypoint.version
        · rw [if_pos hv, if_pos hv]
          rfl
        · rw [if_neg hv, if_neg hv]
          rfl

/-- C9 witness: an epoch-2 proof whose validator set omits author 7 fails with
`ValidatorNotInSet`, yet the reset SafetyData, the installed epoch state and the
advanced waypoint all survive; only the signer is cleared. -/
theorem C9_witness :
    ((∃ a, (SafetyRules.guarded_initialize_op (initOracle exEpochLi ⟨5, 0⟩) exState
        ⟨0⟩).1 = .error (.ValidatorNotInSet a)) ∨
      (∃ d, (SafetyRules.guarded_initialize_op (initOracle exEpochLi ⟨5, 0⟩) exState
        ⟨0⟩).1 = .error (.ValidatorKeyNotFound d))) ∧
    (SafetyRules.guarded_initialize_op (initOracle exEpochLi ⟨5, 0⟩) exState
        ⟨0⟩).2.persistent_storage.safety_data = ⟨2, 0, 0, 0, none⟩ ∧
    (SafetyRules.guarded_initialize_op (initOracle exEpochLi ⟨5, 0⟩) exState
        ⟨0⟩).2.epoch_state = some ⟨2, []⟩ ∧
    (SafetyRules.guarded_initialize_op (initOracle exEpochLi ⟨5, 0⟩) exState
        ⟨0⟩).2.validator_signer = none ∧
    (SafetyRules.guarded_initialize_op (initOracle exEpochLi ⟨5, 0⟩) exState
        ⟨0⟩).2.persistent_storage.waypoint = ⟨5, 0⟩ := by
  have h := C9_init_nonatomic (initOracle exEpochLi ⟨5, 0⟩) exState ⟨0⟩ exEpochLi
    ⟨2, []⟩ ⟨5, 0⟩ rfl rfl rfl (by decide) (by decide)
  exact ⟨h.1, h.2.1, h.2.2.1, h.2.2.2.1, h.2.2.2.2.trans (by decide)⟩

/-- C7 witness: a timeout at the last voted round signs with unchanged state, and a
timeout above it persists the raised `last_voted_round` before signing. -/
theorem C7_witness :
    SafetyRules.guarded_sign_timeout exState ⟨1, 5⟩ =
      (.ok ⟨70, .timeout ⟨1, 5⟩⟩, exState) ∧
    SafetyRules.guarded_sign_timeout exState ⟨1, 9⟩ =
      (.ok ⟨70, .timeout ⟨1, 9⟩⟩, exState.set_safety_data ⟨1, 9, 3, 4, none⟩) := by
  constructor
  · have h := (C7_sign_timeout_rules exState ⟨1, 5⟩ (.signer 7 70) rfl rfl).2.2.1
      (by decide) (by decide)
    rw [h]
    decide
  · have h := (C7_sign_timeout_rules exState ⟨1, 9⟩ (.signer 7 70) rfl rfl).2.2.2
      (by decide) (by decide)
    rw [h]
    decide

end Diem
